import Mathlib

/-!
Verification development for the resume-analyzer core pipeline.

The Python source (package resume_analyzer: resume_parser.py, scoring_engine.py,
strength_weakness_analyzer.py, job_matcher.py, config.py) is shallowly embedded
below.  Conventions of the embedding:

* Python strings are Lean Strings; the input texts are treated as ASCII
  (Python str.lower, \s, \d, \w and [A-Z] are modelled at their ASCII meaning).
* Python re patterns are modelled by a small backtracking matcher (RE below)
  whose alternative/greedy/lazy priorities mirror the Python re engine, so that
  findall / search results agree with CPython on the patterns of config.py.
* Python float scores are modelled as rationals; every value produced by the
  scoring code is a small multiple of 1/2 divided by small integers, for which
  float arithmetic is either exact or (for percentages) rounds monotonically,
  so the bounds and equalities proved below reflect the float computation.
* Python dicts holding the extracted "fact model" are modelled by the Sections
  structure; a key absent from the dict is modelled by the .get default used by
  the consumers (None / 0 / "" / empty list).  The empty dict returned by
  extract_comprehensive_sections for empty input is modelled by Option.none.
* Downstream components (scoring engine, strength/weakness analyzer, job
  matcher) receive the fact model and give it back as the second component of
  their result; the Python code only ever calls sections.get on it, which the
  embedding mirrors by returning the fact model unchanged.
* The human-readable narrative strings (the "details" bullet lists and the
  fixed guidance texts) do not feed back into any numeric value; they are
  omitted from the embedding, which keeps every numeric and structural field.
-/

namespace ResumeAnalyzer

/-! ## Basic character and string helpers (ASCII models of Python primitives) -/

/-- ASCII model of Python regex \s and str whitespace. -/
def pyIsSpace (c : Char) : Bool :=
  c = ' ' ∨ c = '\t' ∨ c = '\n' ∨ c = '\x0d' ∨ c = '\x0b' ∨ c = '\x0c'

/-- ASCII letter (Python [A-Za-z]). -/
def isAsciiAlpha (c : Char) : Bool := ('A' ≤ c ∧ c ≤ 'Z') ∨ ('a' ≤ c ∧ c ≤ 'z')

/-- Uppercase ASCII letter (Python [A-Z] without IGNORECASE). -/
def isUpperAZ (c : Char) : Bool := 'A' ≤ c ∧ c ≤ 'Z'

/-- ASCII digit (Python \d). -/
def isAsciiDigit (c : Char) : Bool := '0' ≤ c ∧ c ≤ '9'

/-- Python \w at ASCII: letter, digit or underscore. -/
def isWordChar (c : Char) : Bool := isAsciiAlpha c ∨ isAsciiDigit c ∨ c = '_'

/-- ASCII model of Python str.lower on a character. -/
def pyLowerChar (c : Char) : Char :=
  if isUpperAZ c then Char.ofNat (c.toNat + 32) else c

/-- ASCII model of Python str.lower. -/
def pyLower (s : String) : String := String.mk (s.toList.map pyLowerChar)

/-- ASCII model of Python str.upper on a character (used by str.title). -/
def pyUpperChar (c : Char) : Char :=
  if ('a' ≤ c ∧ c ≤ 'z') then Char.ofNat (c.toNat - 32) else c

/-- Contiguous-sublist test on lists of characters. -/
def listInfixOf (needle hay : List Char) : Bool :=
  (List.range (hay.length + 1)).any (fun i => needle.isPrefixOf (hay.drop i))

/-- Python "needle in hay" substring test. -/
def strContains (hay needle : String) : Bool :=
  listInfixOf needle.toList hay.toList

/-- Python str.strip() (whitespace at both ends). -/
def pyStrip (s : String) : String :=
  String.mk (((s.toList.dropWhile pyIsSpace).reverse.dropWhile pyIsSpace).reverse)

/-- Python str.split() with no argument: split on whitespace runs, drop empties. -/
def pySplitWords (s : String) : List String :=
  (s.toList.splitOnP pyIsSpace).filterMap
    (fun w => if w.isEmpty then none else some (String.mk w))

/-- Number of occurrences of a character in a string (Python str.count for C10). -/
def countChar (s : String) (c : Char) : Nat := s.toList.count c

/-- Python str.title() on a lowercase ASCII keyword: uppercase every letter that
does not follow a letter. -/
def pyTitle (s : String) : String :=
  String.mk ((s.toList.foldl
    (fun (acc : List Char × Bool) c =>
      if isAsciiAlpha c then
        (acc.1 ++ [if acc.2 then c else pyUpperChar c], true)
      else (acc.1 ++ [c], false))
    ([], false)).1)

/-- Numeric value of a list of ASCII digits (Python int() on a digit string). -/
def natOfDigits (l : List Char) : Nat :=
  l.foldl (fun acc c => acc * 10 + (c.toNat - '0'.toNat)) 0

/-- Python str.split(sep) for a single-character separator (used for line
splitting; kept structural so the kernel can evaluate it). -/
def splitOnChar (sep : Char) (l : List Char) : List String :=
  l.foldr
    (fun x acc =>
      if x = sep then "" :: acc
      else
        match acc with
        | [] => [String.mk [x]]
        | piece :: more => (String.mk (x :: piece.toList)) :: more)
    [""]

/-- Python text.split('\n\n'): split at each non-overlapping occurrence of
two consecutive newlines, scanning left to right. -/
def splitOnBlankLine : List Char → List String
  | [] => [""]
  | '\n' :: '\n' :: rest => "" :: splitOnBlankLine rest
  | c :: rest =>
    match splitOnBlankLine rest with
    | [] => [String.mk [c]]
    | piece :: more => (String.mk (c :: piece.toList)) :: more

/-- Python re.split on a character-class-plus pattern: split the text at every
maximal run of characters satisfying p, keeping empty pieces at the ends, so
that the piece count is one more than the number of separator runs. -/
def splitOnRuns (p : Char → Bool) (l : List Char) : List String :=
  (l.foldr
    (fun c acc =>
      if p c then
        if acc.2 then (acc.1, true) else ("" :: acc.1, true)
      else
        match acc.1 with
        | [] => ([String.mk [c]], false)
        | piece :: more => ((String.mk (c :: piece.toList)) :: more, false))
    ([""], false)).1

/-! ## A small backtracking regex matcher

Candidate match end positions are produced in the backtracking priority order
of the Python re engine: alternatives left to right, greedy repetition longest
first, lazy repetition shortest first.  re.search / re.findall take the first
candidate at the leftmost matching position; findall resumes at the match end. -/

inductive RE where
  | eps
  | cls (p : Char → Bool)
  | seq (a b : RE)
  | alt (a b : RE)
  | rep (lo : Nat) (hi : Option Nat) (a : RE)
  | lazyStar (a : RE)
  | la (a : RE)
  | nla (a : RE)
  | bol
  | eolML
  | eolStr
  | wordB

/-- Python \b: a word/non-word boundary, with positions outside the text
counting as non-word. -/
def wordBoundary (s : List Char) (i : Nat) : Bool :=
  let before := match s[i-1]? with
    | some c => if i = 0 then false else isWordChar c
    | none => false
  let after := match s[i]? with
    | some c => isWordChar c
    | none => false
  before ≠ after

/-- Structural size of a pattern, used to bound the matcher fuel. -/
def reSize : RE → Nat
  | .eps | .cls _ | .bol | .eolML | .eolStr | .wordB => 1
  | .seq a b | .alt a b => reSize a + reSize b + 1
  | .rep _ _ a | .lazyStar a | .la a | .nla a => reSize a + 1

/-- Candidate end positions of a match of the pattern at position i, in
backtracking priority order.  Every repetition body used below consumes at
least one character, so the fuel bound of matchFuel is never reached. -/
def mends (s : List Char) : Nat → RE → Nat → List Nat
  | 0, _, _ => []
  | _ + 1, .eps, i => [i]
  | _ + 1, .cls p, i =>
    match s[i]? with
    | some c => if p c then [i + 1] else []
    | none => []
  | fuel + 1, .seq a b, i => (mends s fuel a i).flatMap (mends s fuel b)
  | fuel + 1, .alt a b, i => mends s fuel a i ++ mends s fuel b i
  | fuel + 1, .la a, i => if (mends s fuel a i).isEmpty then [] else [i]
  | fuel + 1, .nla a, i => if (mends s fuel a i).isEmpty then [i] else []
  | _ + 1, .bol, i =>
    if i = 0 then [i] else if s[i-1]? = some '\n' then [i] else []
  | _ + 1, .eolML, i =>
    if i = s.length then [i] else if s[i]? = some '\n' then [i] else []
  | _ + 1, .eolStr, i =>
    if i = s.length then [i]
    else if i + 1 = s.length ∧ s[i]? = some '\n' then [i] else []
  | _ + 1, .wordB, i => if wordBoundary s i then [i] else []
  | fuel + 1, .rep lo hi a, i =>
    match hi with
    | some 0 => [i]
    | _ =>
      let hiNext : Option Nat := hi.map (· - 1)
      let more := (mends s fuel a i).flatMap (fun j =>
        if j ≤ i then [] else mends s fuel (.rep (lo - 1) hiNext a) j)
      if lo = 0 then more ++ [i] else more
  | fuel + 1, .lazyStar a, i =>
    i :: (mends s fuel a i).flatMap (fun j =>
      if j ≤ i then [] else mends s fuel (.lazyStar a) j)

/-- Fuel that strictly dominates the recursion depth of mends on this input. -/
def matchFuel (r : RE) (s : List Char) : Nat :=
  (s.length + 2) * (reSize r + 2) + 16

/-- End position of the match attempt at position i (first candidate in
backtracking order), if any. -/
def matchEndAt (s : List Char) (r : RE) (i : Nat) : Option Nat :=
  (mends s (matchFuel r s) r i).head?

/-- The substring s[i:j]. -/
def sliceStr (s : List Char) (i j : Nat) : String :=
  String.mk ((s.drop i).take (j - i))

/-- Scan of re.findall: spans of non-overlapping matches, leftmost first,
resuming at each match end (advancing one position after an empty match). -/
def scanSpans (s : List Char) (r : RE) : Nat → Nat → List (Nat × Nat)
  | 0, _ => []
  | fuel + 1, i =>
    if s.length < i then []
    else match matchEndAt s r i with
    | some j =>
      if i < j then (i, j) :: scanSpans s r fuel j
      else (i, j) :: scanSpans s r fuel (i + 1)
    | none =>
      if i = s.length then [] else scanSpans s r fuel (i + 1)

/-- re.findall returning whole-match substrings (patterns whose single group is
the whole match). -/
def findallStr (r : RE) (text : String) : List String :=
  let s := text.toList
  (scanSpans s r (s.length + 2) 0).map (fun ij => sliceStr s ij.1 ij.2)

/-- Number of matches of re.findall (used where the code only takes len()). -/
def countMatches (r : RE) (text : String) : Nat :=
  let s := text.toList
  (scanSpans s r (s.length + 2) 0).length

/-- re.search: does the pattern match anywhere (used for bool(re.search)). -/
def hasMatch (r : RE) (text : String) : Bool :=
  let s := text.toList
  ¬ (scanSpans s r (s.length + 2) 0).isEmpty

/-- First full match of the two-part pattern g1·g2 at position i: backtracking
tries the candidate ends of g1 in priority order and, for each, the candidate
ends of g2.  Returns (end of g1, end of g2). -/
def matchPairAt (s : List Char) (g1 g2 : RE) (i : Nat) : Option (Nat × Nat) :=
  (mends s (matchFuel g1 s) g1 i).findSome? (fun e1 =>
    (mends s (matchFuel g2 s) g2 e1).head?.map (fun e2 => (e1, e2)))

/-- re.findall on a pattern grp·rest with one leading capture group: the spans
(start, end of group, end of match), leftmost first, resuming at match ends. -/
def scanGroupSpans (s : List Char) (grp rest : RE) :
    Nat → Nat → List (Nat × Nat × Nat)
  | 0, _ => []
  | fuel + 1, i =>
    if s.length < i then []
    else match matchPairAt s grp rest i with
    | some (e1, e2) =>
      if i < e2 then (i, e1, e2) :: scanGroupSpans s grp rest fuel e2
      else (i, e1, e2) :: scanGroupSpans s grp rest fuel (i + 1)
    | none =>
      if i = s.length then [] else scanGroupSpans s grp rest fuel (i + 1)

/-- re.findall on grp·rest returning the captures of the leading group. -/
def findallLeadGroup (grp rest : RE) (text : String) : List String :=
  let s := text.toList
  (scanGroupSpans s grp rest (s.length + 2) 0).map
    (fun t => sliceStr s t.1 t.2.1)

/-- re.findall on a pattern pre·cap whose single capture group is the tail:
returns the captures of cap. -/
def findallTailGroup (pre cap : RE) (text : String) : List String :=
  let s := text.toList
  (scanGroupSpans s pre cap (s.length + 2) 0).map
    (fun t => sliceStr s t.2.1 t.2.2)

/-- First full match of the three-part pattern g1·g2·g3 at position i, in
backtracking priority order: (end of g1, end of g2, end of g3). -/
def matchTripleAt (s : List Char) (g1 g2 g3 : RE) (i : Nat) :
    Option (Nat × Nat × Nat) :=
  (mends s (matchFuel g1 s) g1 i).findSome? (fun e1 =>
    (mends s (matchFuel g2 s) g2 e1).findSome? (fun e2 =>
      (mends s (matchFuel g3 s) g3 e2).head?.map (fun e3 => (e1, e2, e3))))

/-- Scan of re.findall on g1·g2·g3 (two capture groups g1 and g3 around g2). -/
def scanTripleSpans (s : List Char) (g1 g2 g3 : RE) :
    Nat → Nat → List (Nat × Nat × Nat × Nat)
  | 0, _ => []
  | fuel + 1, i =>
    if s.length < i then []
    else match matchTripleAt s g1 g2 g3 i with
    | some (e1, e2, e3) =>
      if i < e3 then (i, e1, e2, e3) :: scanTripleSpans s g1 g2 g3 fuel e3
      else (i, e1, e2, e3) :: scanTripleSpans s g1 g2 g3 fuel (i + 1)
    | none =>
      if i = s.length then [] else scanTripleSpans s g1 g2 g3 fuel (i + 1)

/-- re.search on a two-group pattern g1(g2-body): the leftmost match, returning
the text captured between the end of g1 and the end of the body. -/
def searchSecondGroup (g1 body : RE) (text : String) : Option String :=
  let s := text.toList
  (List.range (s.length + 1)).findSome? (fun i =>
    (matchPairAt s g1 body i).map (fun e => sliceStr s e.1 e.2))

/-! ## Pattern combinators and the patterns of config.py / resume_parser.py -/

/-- Sequence of a list of patterns. -/
def rcat (l : List RE) : RE := l.foldr RE.seq RE.eps

/-- Case-sensitive literal. -/
def rlit (w : String) : RE := rcat (w.toList.map (fun c => RE.cls (· = c)))

/-- Case-insensitive literal (w given in lowercase), modelling (?i). -/
def rlitCI (w : String) : RE :=
  rcat (w.toList.map (fun c => RE.cls (fun x => pyLowerChar x = c)))

/-- Single case-insensitive character. -/
def rchCI (c : Char) : RE := RE.cls (fun x => pyLowerChar x = c)

/-- Alternation of a non-empty list, first alternative of highest priority. -/
def ralts (hd : RE) (tl : List RE) : RE := tl.foldl RE.alt hd

def ropt (a : RE) : RE := RE.rep 0 (some 1) a
def rplus (a : RE) : RE := RE.rep 1 none a
def rstar (a : RE) : RE := RE.rep 0 none a
def rrep (lo hi : Nat) (a : RE) : RE := RE.rep lo (some hi) a
def rdigit : RE := RE.cls isAsciiDigit
def rws : RE := RE.cls pyIsSpace
def rwsStar : RE := rstar rws
def rwsPlus : RE := rplus rws
def rch (c : Char) : RE := RE.cls (· = c)
def rdot : RE := RE.cls (fun c => c ≠ '\n')
def rdotAll : RE := RE.cls (fun _ => true)

/-- REGEX_PATTERNS['email']: ([a-zA-Z0-9._%+-]+@[a-zA-Z0-9.-]+\.[a-zA-Z]{2,}) -/
def emailRE : RE :=
  rcat [rplus (RE.cls (fun c => isAsciiAlpha c ∨ isAsciiDigit c ∨
          c = '.' ∨ c = '_' ∨ c = '%' ∨ c = '+' ∨ c = '-')),
        rch '@',
        rplus (RE.cls (fun c => isAsciiAlpha c ∨ isAsciiDigit c ∨ c = '.' ∨ c = '-')),
        rch '.',
        RE.rep 2 none (RE.cls isAsciiAlpha)]

/-- The separator class [-.\s] of the phone patterns. -/
def rsep : RE := RE.cls (fun c => c = '-' ∨ c = '.' ∨ pyIsSpace c)

/-- Phone pattern 1 (international): (\+\d{1,3}[-.\s]?\(?\d{1,4}\)?[-.\s]?\d{1,4}[-.\s]?\d{1,4}) -/
def phoneRE1 : RE :=
  rcat [rch '+', rrep 1 3 rdigit, ropt rsep, ropt (rch '('), rrep 1 4 rdigit,
        ropt (rch ')'), ropt rsep, rrep 1 4 rdigit, ropt rsep, rrep 1 4 rdigit]

/-- Phone pattern 2 (standard US): (\(?\d{3}\)?[-.\s]?\d{3}[-.\s]?\d{4}) -/
def phoneRE2 : RE :=
  rcat [ropt (rch '('), rrep 3 3 rdigit, ropt (rch ')'), ropt rsep,
        rrep 3 3 rdigit, ropt rsep, rrep 4 4 rdigit]

/-- Phone pattern 3 (Indian): (\d{5}[-.\s]?\d{5}) -/
def phoneRE3 : RE :=
  rcat [rrep 5 5 rdigit, ropt rsep, rrep 5 5 rdigit]

/-- Phone pattern 4 (no country code): (\d{3}[-.\s]?\d{3}[-.\s]?\d{4}) -/
def phoneRE4 : RE :=
  rcat [rrep 3 3 rdigit, ropt rsep, rrep 3 3 rdigit, ropt rsep, rrep 4 4 rdigit]

/-- REGEX_PATTERNS['year_ranges'] split at its two groups:
(\d{4})\s*[-–—]\s*(\d{4}|present|current).  Applied to lowered text. -/
def yearRangeG1 : RE := rrep 4 4 rdigit

def yearRangeMid : RE :=
  rcat [rwsStar, RE.cls (fun c => c = '-' ∨ c = '–' ∨ c = '—'), rwsStar]

def yearRangeG2 : RE :=
  ralts (rrep 4 4 rdigit) [rlit "present", rlit "current"]

/-- An end-of-range token of the year_ranges pattern. -/
inductive RangeEnd where
  | year (n : Nat)
  | presentWord
deriving DecidableEq, Repr

/-- re.findall of the year_ranges pattern: (start year, end token) pairs. -/
def findYearRanges (text : String) : List (Nat × RangeEnd) :=
  let s := text.toList
  (scanTripleSpans s yearRangeG1 yearRangeMid yearRangeG2 (s.length + 2) 0).map
    (fun t =>
      let startTok := sliceStr s t.1 t.2.1
      let endTok := sliceStr s t.2.2.1 t.2.2.2
      (natOfDigits startTok.toList,
       if endTok = "present" ∨ endTok = "current" then RangeEnd.presentWord
       else RangeEnd.year (natOfDigits endTok.toList)))

/-- REGEX_PATTERNS['experience_years'] split at its leading group:
(?i)(\d{1,2})\s+years?\s+(?:of\s+)?experience -/
def expMentionG1 : RE := rrep 1 2 rdigit

def expMentionRest : RE :=
  rcat [rwsPlus, rlitCI "year", ropt (rchCI 's'), rwsPlus,
        ropt (rcat [rlitCI "of", rwsPlus]), rlitCI "experience"]

/-- re.findall of the experience_years pattern, as numbers. -/
def findExpMentions (text : String) : List Nat :=
  (findallLeadGroup expMentionG1 expMentionRest text).map
    (fun w => natOfDigits w.toList)

/-- The year-token pattern \b(20\d{2})\b of experience method 3. -/
def yearTokenRE : RE :=
  rcat [RE.wordB, rlit "20", rdigit, rdigit, RE.wordB]

/-- re.findall of \b(20\d{2})\b, as numbers. -/
def findAllYears (text : String) : List Nat :=
  (findallStr yearTokenRE text).map (fun w => natOfDigits w.toList)

/-- First group of the experience-section pattern:
(experience|work\s+history|employment|professional\s+experience), (?i). -/
def expSectionG1 : RE :=
  ralts (rlitCI "experience")
    [rcat [rlitCI "work", rwsPlus, rlitCI "history"],
     rlitCI "employment",
     rcat [rlitCI "professional", rwsPlus, rlitCI "experience"]]

/-- Body of the experience-section pattern: the lazy DOTALL group (.*?)
followed by the lookahead (?=(education|projects|skills|awards|certifications|$)). -/
def expSectionBody : RE :=
  rcat [RE.lazyStar rdotAll,
        RE.la (ralts (rlitCI "education")
          [rlitCI "projects", rlitCI "skills", rlitCI "awards",
           rlitCI "certifications", RE.eolStr])]

/-- Lines 171-174: the text the experience analysis works on - group(2) of the
section match if re.search succeeds, the whole text otherwise. -/
def experienceSectionText (text : String) : String :=
  match searchSecondGroup expSectionG1 expSectionBody text with
  | some sec => sec
  | none => text

/-! ## resume_parser: contact information -/

/-- Helper line 380: _validate_email. -/
def validateEmail (email : String) : Bool :=
  if ¬ (strContains email "@" ∧ strContains email ".") then false
  else if ¬ (countChar email '@' = 1) then false
  else true

/-- Helper line 388: _clean_phone_number (the second definition of that name in
the class body, which overrides the one at line 111): strip every character
that is not a digit or '+', then require at least 10 remaining characters.
The isinstance(phone, tuple) branch never fires: each phone pattern has exactly
one group, so re.findall yields strings. -/
def cleanPhoneNumber (phone : String) : Option String :=
  let cleaned := String.mk (phone.toList.filter (fun c => isAsciiDigit c ∨ c = '+'))
  if 10 ≤ cleaned.length then some cleaned else none

/-- Lines 94-96: all phone candidates, the four patterns scanned in order over
the whole text and concatenated. -/
def phoneCandidates (text : String) : List String :=
  findallStr phoneRE1 text ++ findallStr phoneRE2 text ++
  findallStr phoneRE3 text ++ findallStr phoneRE4 text

/-- The part of the fact model filled in by _extract_contact_info. -/
structure ContactInfo where
  email : Option String
  email_count : Nat
  phone : Option (Option String)
  phone_count : Nat
  phone_numbers : List (Option String)
deriving DecidableEq, Repr

/-- Lines 71-109: _extract_contact_info.  The phone field stores
clean_phones[0], which is itself None when the first candidate cleans to None,
hence the Option (Option String). -/
def extractContactInfo (text : String) : ContactInfo :=
  let emails := findallStr emailRE text
  let contactEmail :=
    if ¬ emails.isEmpty then
      let validEmails := emails.filter validateEmail
      (validEmails.head?, validEmails.length)
    else (none, 0)
  let phones := phoneCandidates text
  if ¬ phones.isEmpty then
    let cleanPhones := phones.map cleanPhoneNumber
    { email := contactEmail.1, email_count := contactEmail.2,
      phone := cleanPhones.head?, phone_count := cleanPhones.length,
      phone_numbers := cleanPhones }
  else
    { email := contactEmail.1, email_count := contactEmail.2,
      phone := none, phone_count := 0, phone_numbers := [] }

end ResumeAnalyzer

namespace ResumeAnalyzer

/-! ## resume_parser: experience analysis -/

/-- Lines 461-472: _classify_experience_level. -/
def classifyExperienceLevel (years : Nat) : String :=
  if years = 0 then "Entry Level / New Graduate"
  else if years ≤ 2 then "Junior Level"
  else if years ≤ 5 then "Mid Level"
  else if years ≤ 10 then "Senior Level"
  else "Expert / Leadership Level"

/-- End of a matched year range (line 435): present/current means the current
year. -/
def rangeEndYear (currentYear : Nat) : RangeEnd → Nat
  | RangeEnd.presentWord => currentYear
  | RangeEnd.year n => n

/-- One step of the method-1 loop (lines 432-440): take the range length when
the range ends no earlier than it starts, else keep the accumulator. -/
def rangeStep (currentYear : Nat) (acc : Nat) (se : Nat × RangeEnd) : Nat :=
  if se.1 ≤ rangeEndYear currentYear se.2 then
    Nat.max acc (rangeEndYear currentYear se.2 - se.1)
  else acc

/-- The length contributed by one year range, none for a backwards range. -/
def rangeDiff (currentYear : Nat) (se : Nat × RangeEnd) : Option Nat :=
  if se.1 ≤ rangeEndYear currentYear se.2 then
    some (rangeEndYear currentYear se.2 - se.1)
  else none

/-- Lines 426-459: _calculate_total_experience, current year passed as a
parameter (config CURRENT_YEAR).  Matches the sequential max-accumulation of
the source: year ranges from the lowered experience text, then the first
explicit "N years experience" mention from the full text, then the span of
in-range year tokens of the experience text. -/
def calculateTotalExperience (currentYear : Nat) (expText fullText : String) : Nat :=
  let te1 := (findYearRanges (pyLower expText)).foldl (rangeStep currentYear) 0
  let te2 := match (findExpMentions fullText).head? with
    | some n => Nat.max te1 n
    | none => te1
  let allYears := findAllYears expText
  if 2 ≤ allYears.length then
    let years := allYears.filter (fun y => 2000 ≤ y ∧ y ≤ currentYear)
    match years.min?, years.max? with
    | some lo, some hi => Nat.max te2 (hi - lo)
    | _, _ => te2
  else te2

/-! ## config.py: keyword lists and achievement patterns -/

/-- config ACTION_VERBS. -/
def ACTION_VERBS : List String :=
  ["developed", "built", "created", "implemented", "designed", "led", "managed",
   "optimized", "engineered", "architected", "delivered", "achieved", "improved",
   "streamlined", "automated", "collaborated", "spearheaded", "coordinated"]

/-- REGEX_PATTERNS['quantified_achievements'][0]:
\d+%\s+(?:increase|improvement|growth|reduction), IGNORECASE when applied. -/
def achRE1 : RE :=
  rcat [rplus rdigit, rch '%', rwsPlus,
        ralts (rlitCI "increase") [rlitCI "improvement", rlitCI "growth", rlitCI "reduction"]]

/-- Achievement pattern 1: (?:increased|improved|reduced|optimized)[^.\n]*\d+% -/
def achRE2 : RE :=
  rcat [ralts (rlitCI "increased") [rlitCI "improved", rlitCI "reduced", rlitCI "optimized"],
        rstar (RE.cls (fun c => c ≠ '.' ∧ c ≠ '\n')), rplus rdigit, rch '%']

/-- The (?:k|,\d{3})* tail of the money / volume patterns. -/
def thousandsTail : RE :=
  rstar (RE.alt (rchCI 'k') (rcat [rch ',', rrep 3 3 rdigit]))

/-- Achievement pattern 2: \$\d+(?:k|,\d{3})*(?:\s+(?:saved|revenue|profit))? -/
def achRE3 : RE :=
  rcat [rch '$', rplus rdigit, thousandsTail,
        ropt (rcat [rwsPlus, ralts (rlitCI "saved") [rlitCI "revenue", rlitCI "profit"]])]

/-- Achievement pattern 3: \d+(?:k|,\d{3})*\+?\s+(?:users|customers|downloads|views) -/
def achRE4 : RE :=
  rcat [rplus rdigit, thousandsTail, ropt (rch '+'), rwsPlus,
        ralts (rlitCI "users") [rlitCI "customers", rlitCI "downloads", rlitCI "views"]]

/-- Achievement pattern 4: \d+(?:st|nd|rd|th)\s+(?:place|position|rank) -/
def achRE5 : RE :=
  rcat [rplus rdigit, ralts (rlitCI "st") [rlitCI "nd", rlitCI "rd", rlitCI "th"],
        rwsPlus, ralts (rlitCI "place") [rlitCI "position", rlitCI "rank"]]

/-- Achievement pattern 5: (?:accuracy|precision|recall)\s+of\s+\d+% -/
def achRE6 : RE :=
  rcat [ralts (rlitCI "accuracy") [rlitCI "precision", rlitCI "recall"],
        rwsPlus, rlitCI "of", rwsPlus, rplus rdigit, rch '%']

/-- The six quantified-achievement patterns, in config order. -/
def achievementREs : List RE := [achRE1, achRE2, achRE3, achRE4, achRE5, achRE6]

/-- config TECHNICAL_CONCEPTS: six (?i) alternation patterns. -/
def technicalConceptREs : List RE :=
  [ralts (rlitCI "algorithm") [rlitCI "data structure", rlitCI "system design", rlitCI "architecture"],
   ralts (rlitCI "optimization") [rlitCI "performance", rlitCI "scalability", rlitCI "efficiency"],
   ralts (rlitCI "api") [rlitCI "microservice", rlitCI "database design", rlitCI "security"],
   ralts (rlitCI "machine learning") [rlitCI "artificial intelligence", rlitCI "deep learning"],
   ralts (rlitCI "cloud native") [rlitCI "containerization", rlitCI "orchestration"],
   ralts (rlitCI "test driven") [rlitCI "continuous integration", rlitCI "deployment pipeline"]]

/-! ## resume_parser: skills analysis -/

/-- The block capture ([^\n]+(?:\n(?!\s*[A-Z][^:\n]*:)[^\n]+)*) used by skills
patterns 0, 1 and 4; with the global (?i), the [A-Z] of the stop lookahead
matches any letter. -/
def skillsBlockCap : RE :=
  rcat [rplus rdot,
        rstar (rcat [rch '\n',
                     RE.nla (rcat [rwsStar, RE.cls isAsciiAlpha,
                                   rstar (RE.cls (fun c => c ≠ ':' ∧ c ≠ '\n')),
                                   rch ':']),
                     rplus rdot])]

/-- Single-line capture ([^\n]+) of skills patterns 2 and 3. -/
def skillsLineCap : RE := rplus rdot

/-- Prefix of skills pattern 0: (?i)(?:technical\s+)?skills?\s*:?\s* -/
def skillsPre1 : RE :=
  rcat [ropt (rcat [rlitCI "technical", rwsPlus]), rlitCI "skill", ropt (rchCI 's'),
        rwsStar, ropt (rch ':'), rwsStar]

/-- Prefix of skills pattern 1: (?i)technologies?\s*:?\s* -/
def skillsPre2 : RE :=
  rcat [rlitCI "technologie", ropt (rchCI 's'), rwsStar, ropt (rch ':'), rwsStar]

/-- Prefix of skills pattern 2: (?i)programming\s+languages?\s*:?\s* -/
def skillsPre3 : RE :=
  rcat [rlitCI "programming", rwsPlus, rlitCI "language", ropt (rchCI 's'),
        rwsStar, ropt (rch ':'), rwsStar]

/-- Prefix of skills pattern 3: (?i)tools?\s*(?:and|&)?\s*technologies?\s*:?\s* -/
def skillsPre4 : RE :=
  rcat [rlitCI "tool", ropt (rchCI 's'), rwsStar,
        ropt (RE.alt (rlitCI "and") (rlit "&")), rwsStar,
        rlitCI "technologie", ropt (rchCI 's'), rwsStar, ropt (rch ':'), rwsStar]

/-- Prefix of skills pattern 4: (?i)core\s+competencies\s*:?\s* -/
def skillsPre5 : RE :=
  rcat [rlitCI "core", rwsPlus, rlitCI "competencies", rwsStar, ropt (rch ':'), rwsStar]

/-- Lines 133-144: the concatenated captures of the five skills patterns. -/
def allSkillsText (text : String) : List String :=
  findallTailGroup skillsPre1 skillsBlockCap text ++
  findallTailGroup skillsPre2 skillsBlockCap text ++
  findallTailGroup skillsPre3 skillsLineCap text ++
  findallTailGroup skillsPre4 skillsLineCap text ++
  findallTailGroup skillsPre5 skillsBlockCap text

/-- The five skill buckets of _categorize_skills. -/
structure SkillCategories where
  programming_languages : List String
  frameworks_libraries : List String
  databases : List String
  tools_platforms : List String
  methodologies : List String
deriving DecidableEq, Repr

/-- The keyword table of _categorize_skills (lines 410-416). -/
def skillMappings : List (List String) :=
  [["python", "java", "javascript", "c++", "c#", "ruby", "php", "go", "rust", "swift"],
   ["react", "angular", "vue", "django", "flask", "spring", "express", "tensorflow", "pytorch"],
   ["mysql", "postgresql", "mongodb", "redis", "cassandra", "elasticsearch"],
   ["aws", "azure", "docker", "kubernetes", "jenkins", "git", "linux"],
   ["agile", "scrum", "devops", "ci/cd", "tdd", "microservices"]]

/-- One bucket of _categorize_skills: the keywords found in the lowered skills
text, title-cased. -/
def categorizeBucket (skillsLower : String) (keywords : List String) : List String :=
  (keywords.filter (fun k => strContains skillsLower k)).map pyTitle

/-- Lines 396-424: _categorize_skills (empty skills text gives the empty
mapping, which every consumer reads back as five empty buckets). -/
def categorizeSkills (skillsText : String) : SkillCategories :=
  if skillsText = "" then
    ⟨[], [], [], [], []⟩
  else
    let lower := pyLower skillsText
    ⟨categorizeBucket lower (skillMappings.getD 0 []),
     categorizeBucket lower (skillMappings.getD 1 []),
     categorizeBucket lower (skillMappings.getD 2 []),
     categorizeBucket lower (skillMappings.getD 3 []),
     categorizeBucket lower (skillMappings.getD 4 [])⟩

/-- The skills part of the fact model. -/
structure SkillsData where
  skills_text : String
  skills_word_count : Nat
  individual_skills : List String
  skills_count : Nat
  skill_categories : SkillCategories
deriving DecidableEq, Repr

/-- Lines 128-164: _extract_skills_analysis. -/
def extractSkillsAnalysis (text : String) : SkillsData :=
  let combined := String.intercalate " " (allSkillsText text)
  let wordCount := if combined ≠ "" then (pySplitWords combined).length else 0
  let indiv :=
    if combined ≠ "" then
      let pieces := splitOnRuns
        (fun c => c = ',' ∨ c = ';' ∨ c = '|' ∨ c = '•' ∨ c = '\n')
        combined.toList
      (pieces.filter (fun p => pyStrip p ≠ "")).map pyStrip
    else []
  { skills_text := combined,
    skills_word_count := wordCount,
    individual_skills := indiv.take 20,
    skills_count := indiv.length,
    skill_categories := categorizeSkills combined }

/-! ## resume_parser: experience analysis -/

/-- Position-indicator patterns of lines 182-186, in order. -/
def positionREs : List RE :=
  [ralts (rcat [rlitCI "software", rwsPlus, rlitCI "engineer"])
     [rlitCI "developer", rlitCI "analyst", rlitCI "scientist",
      rlitCI "manager", rlitCI "lead", rlitCI "senior", rlitCI "junior"],
   ralts (rlitCI "intern") [rlitCI "internship", rlitCI "co-op"],
   ralts (rlitCI "consultant") [rlitCI "contractor", rlitCI "freelancer"]]

/-- The leadership pattern of line 194: (?i)(lead|manager|supervisor|team\s+lead). -/
def leadershipRE : RE :=
  ralts (rlitCI "lead")
    [rlitCI "manager", rlitCI "supervisor", rcat [rlitCI "team", rwsPlus, rlitCI "lead"]]

/-- Leadership keywords of line 496. -/
def leadershipKeywords : List String :=
  ["led", "managed", "coordinated", "collaborated", "mentored", "trained"]

/-- Lines 474-500: _analyze_experience_quality. -/
def analyzeExperienceQuality (expText : String) : Nat :=
  if expText = "" then 0
  else
    let lower := pyLower expText
    let verbCount := ACTION_VERBS.countP (fun v => strContains lower (pyLower v))
    let achCount := (achievementREs.map (fun r => countMatches r expText)).sum
    let techCount := (technicalConceptREs.map (fun r => countMatches r expText)).sum
    let leadCount := leadershipKeywords.countP (fun k => strContains lower k)
    Nat.min 100
      (Nat.min 20 (verbCount * 2) + Nat.min 30 (achCount * 5) +
       Nat.min 25 (techCount * 3) + Nat.min 15 (leadCount * 3))

/-- The experience part of the fact model. -/
structure ExperienceData where
  experience_years : Nat
  experience_level : String
  position_count : Nat
  has_internship : Bool
  has_leadership : Bool
  experience_quality : Nat
deriving DecidableEq, Repr

/-- Lines 166-199: _extract_experience_analysis. -/
def extractExperienceAnalysis (currentYear : Nat) (text : String) : ExperienceData :=
  let expText := experienceSectionText text
  let years := calculateTotalExperience currentYear expText text
  { experience_years := years,
    experience_level := classifyExperienceLevel years,
    position_count := (positionREs.map (fun r => countMatches r expText)).sum,
    has_internship := hasMatch (rlitCI "intern") expText,
    has_leadership := hasMatch leadershipRE expText,
    experience_quality := analyzeExperienceQuality expText }

/-! ## resume_parser: project analysis -/

/-- First group of the projects-section pattern:
(projects|personal\s+projects|portfolio|academic\s+projects), (?i). -/
def projSectionG1 : RE :=
  ralts (rlitCI "projects")
    [rcat [rlitCI "personal", rwsPlus, rlitCI "projects"],
     rlitCI "portfolio",
     rcat [rlitCI "academic", rwsPlus, rlitCI "projects"]]

/-- Body of the projects-section pattern: lazy DOTALL capture up to
(?=(experience|education|skills|awards|$)). -/
def projSectionBody : RE :=
  rcat [RE.lazyStar rdotAll,
        RE.la (ralts (rlitCI "experience")
          [rlitCI "education", rlitCI "skills", rlitCI "awards", RE.eolStr])]

/-- The lazy line capture (.+?)(?=\n|$) shared by the three project patterns
(flags (?i) and MULTILINE, so the $ of the lookahead is a line end). -/
def projLineCap : RE :=
  rcat [rdot, RE.lazyStar rdot, RE.la (RE.alt (rch '\n') RE.eolML)]

/-- Prefix of project pattern 0: ^\s*[•\-*]\s* -/
def projPre1 : RE :=
  rcat [RE.bol, rwsStar, RE.cls (fun c => c = '•' ∨ c = '-' ∨ c = '*'), rwsStar]

/-- Prefix of project pattern 1: project\s*\d*\s*[:\-]?\s* -/
def projPre2 : RE :=
  rcat [rlitCI "project", rwsStar, rstar rdigit, rwsStar,
        ropt (RE.cls (fun c => c = ':' ∨ c = '-')), rwsStar]

/-- Prefix of project pattern 2: ^\s*\d+\.\s* -/
def projPre3 : RE :=
  rcat [RE.bol, rwsStar, rplus rdigit, rch '.', rwsStar]

/-- Lines 502-533: _assess_project_quality (receives the raw, unstripped
capture). -/
def assessProjectQuality (desc : String) : Nat :=
  if desc = "" then 0
  else
    let lower := pyLower desc
    let lenScore : Nat :=
      if 100 < desc.length then 20 else if 50 < desc.length then 10 else 0
    let techKeywords := ["built", "developed", "implemented", "created",
                         "designed", "using", "with"]
    let techScore := Nat.min 30 ((techKeywords.countP (fun k => strContains lower k)) * 5)
    let namedTech : Nat :=
      if ["python", "javascript", "react", "node", "sql", "api"].any
          (fun t => strContains lower t) then 20 else 0
    let outcome : Nat :=
      if ["achieved", "improved", "increased", "reduced", "optimized"].any
          (fun w => strContains lower w) then 15 else 0
    let links : Nat :=
      if ["github", "demo", "live", "deployed", "hosted"].any
          (fun w => strContains lower w) then 15 else 0
    Nat.min 100 (lenScore + techScore + namedTech + outcome + links)

/-- Demo/live reference patterns of _count_demo_references. -/
def demoREs : List RE :=
  [rlitCI "demo",
   rcat [rlitCI "live", rwsPlus,
         ralts (rlitCI "site") [rlitCI "app", rlitCI "version"]],
   rlitCI "deployed",
   rlitCI "hosted"]

/-- The projects part of the fact model. -/
structure ProjectData where
  project_count : Nat
  project_descriptions : List String
  average_project_quality : ℚ
  has_github_links : Nat
  has_live_demos : Nat
deriving DecidableEq, Repr

/-- First-occurrence deduplication (lines 233-238). -/
def dedupKeepOrder (l : List String) : List String :=
  l.foldl (fun acc x => if acc.contains x then acc else acc ++ [x]) []

/-- Lines 201-246: _extract_project_analysis. -/
def extractProjectAnalysis (text : String) : ProjectData :=
  let raw :=
    match searchSecondGroup projSectionG1 projSectionBody text with
    | some projText =>
      (findallTailGroup projPre1 projLineCap projText ++
       findallTailGroup projPre2 projLineCap projText ++
       findallTailGroup projPre3 projLineCap projText).filter
        (fun m => 10 < (pyStrip m).length)
    | none => []
  let descriptions := raw.map pyStrip
  let qualityScores := raw.map assessProjectQuality
  let uniqueProjects := dedupKeepOrder descriptions
  { project_count := uniqueProjects.length,
    project_descriptions := uniqueProjects.take 5,
    average_project_quality :=
      if qualityScores.isEmpty then 0
      else ((qualityScores.map (fun n => (n : ℚ))).sum) / (qualityScores.length : ℚ),
    has_github_links := countMatches (rlitCI "github") text,
    has_live_demos := (demoREs.map (fun r => countMatches r text)).sum }

/-! ## resume_parser: education -/

/-- The four education keyword-family patterns of lines 253-258. -/
def educationREs : List RE :=
  [ralts (rlitCI "education") [rcat [rlitCI "academic", rwsPlus, rlitCI "background"]],
   ralts (rlitCI "bachelor")
     [rlitCI "master", rlitCI "phd", rlitCI "doctorate",
      rcat [rchCI 'b', ropt (rch '.'), rlitCI "tech"],
      rcat [rchCI 'm', ropt (rch '.'), rlitCI "tech"],
      rcat [rchCI 'b', ropt (rch '.'), rlitCI "sc"],
      rcat [rchCI 'm', ropt (rch '.'), rlitCI "sc"],
      rcat [rchCI 'b', ropt (rch '.'), rchCI 'a'],
      rcat [rchCI 'm', ropt (rch '.'), rchCI 'a']],
   ralts (rlitCI "university") [rlitCI "college", rlitCI "institute", rlitCI "school"],
   ralts (rlitCI "degree") [rlitCI "diploma", rlitCI "certification", rlitCI "graduate"]]

/-- Prefix of the GPA pattern (?i)gpa[:\s]* -/
def gpaPre : RE :=
  rcat [rlitCI "gpa", rstar (RE.cls (fun c => c = ':' ∨ pyIsSpace c))]

/-- Capture ([0-9.]+) of the GPA pattern. -/
def gpaCap : RE := rplus (RE.cls (fun c => isAsciiDigit c ∨ c = '.'))

/-- The education part of the fact model.  Python builds education_keywords as
list(set(...))[:10]; the unordered set is modelled by first-occurrence order. -/
structure EducationData where
  has_education : Bool
  education_mention_count : Nat
  education_keywords : List String
  has_gpa : Bool
  gpa_value : Option String
deriving DecidableEq, Repr

/-- Lines 248-278: _extract_education_info. -/
def extractEducationInfo (text : String) : EducationData :=
  let found := educationREs.flatMap (fun r => findallStr r text)
  let gpaMatches := findallTailGroup gpaPre gpaCap text
  { has_education := 0 < found.length,
    education_mention_count := found.length,
    education_keywords := (dedupKeepOrder found).take 10,
    has_gpa := 0 < gpaMatches.length,
    gpa_value := gpaMatches.head? }

/-! ## resume_parser: quantified achievements -/

/-- The five achievement buckets. -/
inductive AchCat where
  | performance | financial | scale | time | quality
deriving DecidableEq, Repr

/-- Lines 299-308: the elif chain assigning a match to the first bucket whose
trigger substrings it contains (the financial triggers are checked on the raw
match, the others on its lowering), or to no bucket at all. -/
def categorizeAchievement (m : String) : Option AchCat :=
  let lower := pyLower m
  if ["%", "percent", "increase", "improve", "reduce"].any
      (fun w => strContains lower w) then some AchCat.performance
  else if ["$", "revenue", "cost", "profit", "budget"].any
      (fun w => strContains m w) then some AchCat.financial
  else if ["users", "customers", "downloads", "views"].any
      (fun w => strContains lower w) then some AchCat.scale
  else if ["time", "speed", "faster", "efficiency"].any
      (fun w => strContains lower w) then some AchCat.time
  else if ["accuracy", "precision", "quality", "score"].any
      (fun w => strContains lower w) then some AchCat.quality
  else none

/-- The category lists of _analyze_quantified_achievements. -/
structure AchievementCategories where
  performance_metrics : List String
  financial_impact : List String
  scale_metrics : List String
  time_improvements : List String
  quality_metrics : List String
deriving DecidableEq, Repr

/-- Append a match to the bucket chosen by categorizeAchievement. -/
def addToCategory (cats : AchievementCategories) (m : String) : AchievementCategories :=
  match categorizeAchievement m with
  | some AchCat.performance => { cats with performance_metrics := cats.performance_metrics ++ [m] }
  | some AchCat.financial => { cats with financial_impact := cats.financial_impact ++ [m] }
  | some AchCat.scale => { cats with scale_metrics := cats.scale_metrics ++ [m] }
  | some AchCat.time => { cats with time_improvements := cats.time_improvements ++ [m] }
  | some AchCat.quality => { cats with quality_metrics := cats.quality_metrics ++ [m] }
  | none => cats

/-- Number of non-empty buckets (line 313). -/
def nonEmptyCategoryCount (cats : AchievementCategories) : Nat :=
  ([cats.performance_metrics, cats.financial_impact, cats.scale_metrics,
    cats.time_improvements, cats.quality_metrics].filter (fun l => ¬ l.isEmpty)).length

/-- The achievements part of the fact model. -/
structure AchievementData where
  quantified_achievements : Nat
  achievement_examples : List String
  achievement_categories : AchievementCategories
  achievement_diversity : Nat
deriving DecidableEq, Repr

/-- All matches of the six achievement patterns over the text, in pattern
order (lines 294-297). -/
def allAchievementMatches (text : String) : List String :=
  achievementREs.flatMap (fun r => findallStr r text)

/-- Lines 280-315: _analyze_quantified_achievements. -/
def analyzeQuantifiedAchievements (text : String) : AchievementData :=
  let allMatches := allAchievementMatches text
  let cats := allMatches.foldl addToCategory ⟨[], [], [], [], []⟩
  { quantified_achievements := allMatches.length,
    achievement_examples := allMatches.take 8,
    achievement_categories := cats,
    achievement_diversity := nonEmptyCategoryCount cats }

/-! ## resume_parser: technical depth -/

/-- The six concept_mappings patterns of lines 332-339, in dict order. -/
def conceptMappingREs : List RE :=
  [ralts (rlitCI "algorithm")
     [rlitCI "data structure", rlitCI "system design", rlitCI "architecture",
      rlitCI "design pattern"],
   ralts (rlitCI "optimization")
     [rlitCI "performance", rlitCI "scalability", rlitCI "efficiency", rlitCI "caching"],
   ralts (rlitCI "api")
     [rlitCI "rest", rlitCI "graphql", rlitCI "microservice", rlitCI "integration",
      rlitCI "webhook"],
   ralts (rlitCI "machine learning")
     [rlitCI "artificial intelligence", rlitCI "deep learning",
      rlitCI "neural network", rlitCI "model"],
   ralts (rlitCI "cloud")
     [rlitCI "aws", rlitCI "azure", rlitCI "docker", rlitCI "kubernetes",
      rlitCI "containerization"],
   ralts (rlitCI "test driven")
     [rlitCI "unit test", rlitCI "integration test", rlitCI "automated testing",
      rlitCI "ci/cd"]]

/-- Lines 545-554: _classify_technical_level. -/
def classifyTechnicalLevel (mentions : Nat) : String :=
  if 15 ≤ mentions then "Advanced Technical Depth"
  else if 8 ≤ mentions then "Good Technical Understanding"
  else if 3 ≤ mentions then "Basic Technical Awareness"
  else "Limited Technical Depth"

/-- The technical-depth part of the fact model; the per-category counts are
kept in concept_mappings order. -/
structure TechnicalData where
  technical_depth_score : Nat
  technical_categories : List Nat
  technical_sophistication : String
deriving DecidableEq, Repr

/-- Lines 317-351: _analyze_technical_depth. -/
def analyzeTechnicalDepth (text : String) : TechnicalData :=
  let counts := conceptMappingREs.map (fun r => countMatches r text)
  { technical_depth_score := counts.sum,
    technical_categories := counts,
    technical_sophistication := classifyTechnicalLevel counts.sum }

/-! ## resume_parser: content quality -/

/-- The section-header pattern (?i)^[A-Z][A-Z\s]+$ with MULTILINE: because of
the (?i) flag the letter class also takes lowercase letters, and because \s
also matches a newline a single match may span several adjacent lines. -/
def sectionHeaderRE : RE :=
  rcat [RE.bol, RE.cls isAsciiAlpha,
        rplus (RE.cls (fun c => isAsciiAlpha c ∨ pyIsSpace c)), RE.eolML]

/-- The content-quality part of the fact model. -/
structure ContentQuality where
  word_count : Nat
  sentence_count : Nat
  paragraph_count : Nat
  avg_words_per_sentence : ℚ
  action_verb_count : Nat
  action_verb_density : ℚ
  section_headers : Nat
  structure_score : Nat
deriving DecidableEq, Repr

/-- Lines 353-377: _analyze_content_quality. -/
def analyzeContentQuality (text : String) : ContentQuality :=
  let wordCount := (pySplitWords text).length
  let sentenceCount :=
    (splitOnRuns (fun c => c = '.' ∨ c = '!' ∨ c = '?') text.toList).length
  let paragraphCount :=
    ((splitOnBlankLine text.toList).filter (fun p => pyStrip p ≠ "")).length
  let verbCount := ACTION_VERBS.countP
    (fun v => strContains (pyLower text) (pyLower v))
  let headers := countMatches sectionHeaderRE text
  { word_count := wordCount,
    sentence_count := sentenceCount,
    paragraph_count := paragraphCount,
    avg_words_per_sentence :=
      if 0 < sentenceCount then (wordCount : ℚ) / (sentenceCount : ℚ) else 0,
    action_verb_count := verbCount,
    action_verb_density :=
      if 0 < wordCount then (verbCount : ℚ) / (wordCount : ℚ) else 0,
    section_headers := headers,
    structure_score := Nat.min 10 (headers * 2) }

/-! ## resume_parser: the assembled fact model -/

/-- Truthiness of an optional string (Python bool(None) = bool('') = False). -/
def optTruthy : Option String → Bool
  | some s => s ≠ ""
  | none => false

/-- The analysis_summary roll-up (lines 556-590). -/
structure AnalysisSummary where
  total_data_points : Nat
  completeness_score : ℚ
  technical_readiness : ℚ
  professional_maturity : ℚ
deriving DecidableEq, Repr

/-- The full fact model produced by extract_comprehensive_sections for
non-empty text (the union of the section dicts; the dict itself is modelled by
this structure). -/
structure Sections where
  email : Option String
  email_count : Nat
  phone : Option (Option String)
  phone_count : Nat
  phone_numbers : List (Option String)
  skills_text : String
  skills_word_count : Nat
  individual_skills : List String
  skills_count : Nat
  skill_categories : SkillCategories
  experience_years : Nat
  experience_level : String
  position_count : Nat
  has_internship : Bool
  has_leadership : Bool
  experience_quality : Nat
  project_count : Nat
  project_descriptions : List String
  average_project_quality : ℚ
  has_github_links : Nat
  has_live_demos : Nat
  has_education : Bool
  education_mention_count : Nat
  education_keywords : List String
  has_gpa : Bool
  gpa_value : Option String
  quantified_achievements : Nat
  achievement_examples : List String
  achievement_categories : AchievementCategories
  achievement_diversity : Nat
  technical_depth_score : Nat
  technical_categories : List Nat
  technical_sophistication : String
  word_count : Nat
  sentence_count : Nat
  paragraph_count : Nat
  avg_words_per_sentence : ℚ
  action_verb_count : Nat
  action_verb_density : ℚ
  section_headers : Nat
  structure_score : Nat
  analysis_summary : AnalysisSummary
deriving DecidableEq, Repr

/-- Lines 556-590: _generate_analysis_summary over the assembled dict; the
dict has 41 keys at that point, so total_data_points is 41.  Truthiness of
sections.get follows Python (0, None and "" are falsy). -/
def generateAnalysisSummary (s : Sections) : AnalysisSummary :=
  let completeness : Nat :=
    (if optTruthy s.email then 1 else 0) + (if s.skills_text ≠ "" then 1 else 0) +
    (if s.experience_years ≠ 0 then 1 else 0) + (if s.project_count ≠ 0 then 1 else 0)
  let technical : Nat :=
    (if 8 ≤ s.skills_count then 1 else 0) +
    (if 5 ≤ s.technical_depth_score then 1 else 0) +
    (if 2 ≤ s.project_count then 1 else 0) +
    (if 1 ≤ s.quantified_achievements then 1 else 0)
  let maturity : Nat :=
    (if 1 ≤ s.experience_years then 1 else 0) +
    (if 5 ≤ s.action_verb_count then 1 else 0) +
    (if s.has_education then 1 else 0) +
    (if 2 ≤ s.quantified_achievements then 1 else 0)
  { total_data_points := 41,
    completeness_score := ((completeness : ℚ) / 4) * 100,
    technical_readiness := ((technical : ℚ) / 4) * 100,
    professional_maturity := ((maturity : ℚ) / 4) * 100 }

/-- The fact model of a non-empty text (lines 38-66 of
extract_comprehensive_sections). -/
def buildSections (currentYear : Nat) (text : String) : Sections :=
  let contact := extractContactInfo text
  let skills := extractSkillsAnalysis text
  let expData := extractExperienceAnalysis currentYear text
  let projects := extractProjectAnalysis text
  let education := extractEducationInfo text
  let achievements := analyzeQuantifiedAchievements text
  let tech := analyzeTechnicalDepth text
  let content := analyzeContentQuality text
  let base : Sections :=
    { email := contact.email, email_count := contact.email_count,
      phone := contact.phone, phone_count := contact.phone_count,
      phone_numbers := contact.phone_numbers,
      skills_text := skills.skills_text,
      skills_word_count := skills.skills_word_count,
      individual_skills := skills.individual_skills,
      skills_count := skills.skills_count,
      skill_categories := skills.skill_categories,
      experience_years := expData.experience_years,
      experience_level := expData.experience_level,
      position_count := expData.position_count,
      has_internship := expData.has_internship,
      has_leadership := expData.has_leadership,
      experience_quality := expData.experience_quality,
      project_count := projects.project_count,
      project_descriptions := projects.project_descriptions,
      average_project_quality := projects.average_project_quality,
      has_github_links := projects.has_github_links,
      has_live_demos := projects.has_live_demos,
      has_education := education.has_education,
      education_mention_count := education.education_mention_count,
      education_keywords := education.education_keywords,
      has_gpa := education.has_gpa,
      gpa_value := education.gpa_value,
      quantified_achievements := achievements.quantified_achievements,
      achievement_examples := achievements.achievement_examples,
      achievement_categories := achievements.achievement_categories,
      achievement_diversity := achievements.achievement_diversity,
      technical_depth_score := tech.technical_depth_score,
      technical_categories := tech.technical_categories,
      technical_sophistication := tech.technical_sophistication,
      word_count := content.word_count,
      sentence_count := content.sentence_count,
      paragraph_count := content.paragraph_count,
      avg_words_per_sentence := content.avg_words_per_sentence,
      action_verb_count := content.action_verb_count,
      action_verb_density := content.action_verb_density,
      section_headers := content.section_headers,
      structure_score := content.structure_score,
      analysis_summary := ⟨0, 0, 0, 0⟩ }
  { base with analysis_summary := generateAnalysisSummary base }

/-- Lines 24-69: extract_comprehensive_sections.  The input is None or a
string (Python "if not text" treats None and "" alike); the empty dict the
code returns for empty input is modelled by none, a populated dict by some. -/
def extractComprehensiveSections (currentYear : Nat) :
    Option String → Option Sections
  | none => none
  | some text => if text = "" then none else some (buildSections currentYear text)

/-! ## config.py: ATS_KEYWORDS role catalog -/

/-- A role profile of the ATS_KEYWORDS catalog. -/
structure RoleProfile where
  key : String
  core_skills : List String
  frameworks : List String
  methodologies : List String
  platforms : List String
deriving DecidableEq, Repr

/-- config ATS_KEYWORDS (the four keyword tiers; the narrative daily_tasks and
tech_stack entries feed no computation). -/
def atsKeywords : List RoleProfile :=
  [{ key := "software_developer",
     core_skills := ["Python", "Java", "JavaScript", "C++", "SQL", "Git", "API", "Database"],
     frameworks := ["React", "Node.js", "Spring", "Django", "Flask", "Express"],
     methodologies := ["Agile", "Scrum", "Testing", "DevOps", "CI/CD"],
     platforms := ["AWS", "Azure", "Docker", "Linux", "Cloud"] },
   { key := "data_scientist",
     core_skills := ["Python", "R", "SQL", "Statistics", "Machine Learning", "Deep Learning"],
     frameworks := ["Pandas", "NumPy", "Scikit-learn", "TensorFlow", "PyTorch", "Matplotlib"],
     methodologies := ["Data Analysis", "Statistical Modeling", "A/B Testing", "ETL", "Feature Engineering"],
     platforms := ["Jupyter", "AWS", "Big Data", "Spark", "Hadoop"] },
   { key := "ai_engineer",
     core_skills := ["Machine Learning", "Deep Learning", "Neural Networks", "AI", "Python", "Mathematics"],
     frameworks := ["TensorFlow", "PyTorch", "Keras", "OpenCV", "Transformers", "CUDA"],
     methodologies := ["MLOps", "Model Training", "Computer Vision", "NLP", "Research", "Algorithm Design"],
     platforms := ["GPU Computing", "Cloud ML", "Docker", "Kubernetes", "MLflow"] },
   { key := "full_stack_developer",
     core_skills := ["JavaScript", "TypeScript", "HTML", "CSS", "SQL", "Git", "REST API"],
     frameworks := ["React", "Angular", "Vue.js", "Node.js", "Express", "MongoDB", "PostgreSQL"],
     methodologies := ["Responsive Design", "Agile", "Testing", "GraphQL", "Microservices"],
     platforms := ["Docker", "AWS", "Heroku", "Netlify", "Vercel"] },
   { key := "devops_engineer",
     core_skills := ["Linux", "Bash", "Python", "Git", "Networking", "Security"],
     frameworks := ["Docker", "Kubernetes", "Jenkins", "Terraform", "Ansible", "Prometheus"],
     methodologies := ["CI/CD", "Infrastructure as Code", "Monitoring", "Automation", "Containerization"],
     platforms := ["AWS", "Azure", "GCP", "Linux", "Cloud Computing"] }]

/-- The catalog lookup target_role.lower().replace(' ', '_') used by the
scoring engine and the two analyzers. -/
def lookupRole (targetRole : String) : Option RoleProfile :=
  atsKeywords.find? (fun r => r.key = (pyLower targetRole).replace " " "_")

/-- Truthiness of the optional target_role argument ("" and None are falsy). -/
def roleTruthy : Option String → Bool
  | some s => s ≠ ""
  | none => false

/-! ## scoring_engine.py

Every component takes the fact model and returns it alongside its numeric
result; the Python methods mutate only their own score_breakdown entry and
read the fact model with sections.get. -/

/-- Truthiness of the phone field (the dict may hold an actual None produced
by _clean_phone_number). -/
def phoneTruthy : Option (Option String) → Bool
  | some (some p) => p ≠ ""
  | _ => false

/-- Lines 59-86: _score_contact_information (email worth 8, phone worth 7;
provider and multiplicity checks only append narrative details). -/
def scoreContactInformation (s : Sections) : ℚ × Sections :=
  let emailScore : ℚ := if optTruthy s.email then 8 else 0
  let phoneScore : ℚ := if phoneTruthy s.phone then 7 else 0
  (emailScore + phoneScore, s)

/-- Lines 277-313: _calculate_role_specific_score. -/
def calculateRoleSpecificScore (textLower : String) (role : RoleProfile) : ℚ :=
  let matchedCore := role.core_skills.filter (fun k => strContains textLower (pyLower k))
  let matchedFrameworks := role.frameworks.filter (fun k => strContains textLower (pyLower k))
  let matchedMethodologies := role.methodologies.filter (fun k => strContains textLower (pyLower k))
  min 15 ((matchedCore.length : ℚ) * 2) +
  min 8 ((matchedFrameworks.length : ℚ) * 1.5) +
  min 5 ((matchedMethodologies.length : ℚ) * 1)

/-- Lines 315-341: _calculate_general_tech_score. -/
def calculateGeneralTechScore (textLower : String) : ℚ :=
  let programming := ["python", "java", "javascript", "c++", "sql", "html", "css"]
  let matchedProgramming := programming.filter (fun k => strContains textLower k)
  let progScore : ℚ :=
    if 4 ≤ matchedProgramming.length then 12
    else if 2 ≤ matchedProgramming.length then 8 else 0
  let tools := ["git", "docker", "aws", "linux", "api", "database", "cloud"]
  let matchedTools := tools.filter (fun k => strContains textLower k)
  let toolScore : ℚ :=
    if 3 ≤ matchedTools.length then 8
    else if 1 ≤ matchedTools.length then 4 else 0
  progScore + toolScore

/-- Lines 343-361: _assess_skill_diversity (an empty categories dict and a
dict of five empty buckets both score 0). -/
def assessSkillDiversity (cats : SkillCategories) : ℚ :=
  let nonEmpty :=
    ([cats.programming_languages, cats.frameworks_libraries, cats.databases,
      cats.tools_platforms, cats.methodologies].filter (fun l => ¬ l.isEmpty)).length
  if 4 ≤ nonEmpty then 3 else if 3 ≤ nonEmpty then 2
  else if 2 ≤ nonEmpty then 1 else 0

/-- Lines 88-131: _score_technical_skills, final value clamped to 30. -/
def scoreTechnicalSkills (text : String) (targetRole : Option String)
    (s : Sections) : ℚ × Sections :=
  let skillsText := pyLower s.skills_text
  let textLower := pyLower text
  let baseScore : ℚ :=
    if skillsText ≠ "" then
      5 + (if 12 ≤ s.skills_count then 5
           else if 6 ≤ s.skills_count then 3
           else if 0 < s.skills_count then 1 else 0)
    else 0
  let roleBonus : ℚ :=
    match targetRole with
    | some tr =>
      if tr ≠ "" then
        match lookupRole tr with
        | some role => calculateRoleSpecificScore textLower role
        | none => calculateGeneralTechScore textLower
      else calculateGeneralTechScore textLower
    | none => calculateGeneralTechScore textLower
  let categoryBonus := assessSkillDiversity s.skill_categories
  (min (baseScore + roleBonus + categoryBonus) 30, s)

/-- Lines 133-190: _score_experience_quality, clamped to 25. -/
def scoreExperienceQuality (s : Sections) : ℚ × Sections :=
  let years := s.experience_years
  let yearsScore : ℚ :=
    if 5 ≤ years then 10
    else if 3 ≤ years then 8
    else if 1 ≤ years then 5
    else if 0 < years then 2 else 0
  let positionScore : ℚ :=
    if 3 ≤ s.position_count then 4
    else if 2 ≤ s.position_count then 2
    else if s.position_count = 1 then 1 else 0
  let qualityScore : ℚ :=
    if 70 ≤ s.experience_quality then 6
    else if 50 ≤ s.experience_quality then 4
    else if 30 ≤ s.experience_quality then 2 else 0
  let leadershipScore : ℚ := if s.has_leadership then 3 else 0
  let internshipScore : ℚ :=
    if years ≤ 2 ∧ s.has_internship then 2 else 0
  (min (yearsScore + positionScore + qualityScore + leadershipScore + internshipScore) 25, s)

/-- Indicators of the line 221 high-quality-example filter. -/
def highQualityIndicators : List String := ["%", "$", "increased", "reduced", "improved"]

/-- Lines 192-228: _score_quantified_achievements, clamped to 20. -/
def scoreQuantifiedAchievements (s : Sections) : ℚ × Sections :=
  let countScore : ℚ :=
    if 5 ≤ s.quantified_achievements then 15
    else if 3 ≤ s.quantified_achievements then 10
    else if 1 ≤ s.quantified_achievements then 5 else 0
  let diversityScore : ℚ :=
    if 3 ≤ s.achievement_diversity then 3
    else if 2 ≤ s.achievement_diversity then 2 else 0
  let exampleScore : ℚ :=
    if ¬ s.achievement_examples.isEmpty then
      let highQuality := (s.achievement_examples.take 3).filter
        (fun ex => highQualityIndicators.any (fun w => strContains (pyLower ex) w))
      if 2 ≤ highQuality.length then 2 else 0
    else 0
  (min (countScore + diversityScore + exampleScore) 20, s)

/-- Lines 230-275: _score_content_optimization, clamped to 10. -/
def scoreContentOptimization (s : Sections) : ℚ × Sections :=
  let lengthScore : ℚ :=
    if 400 ≤ s.word_count ∧ s.word_count ≤ 800 then 4
    else if 300 ≤ s.word_count ∧ s.word_count ≤ 1000 then 3 else 0
  let verbScore : ℚ :=
    if 10 ≤ s.action_verb_count then 3
    else if 6 ≤ s.action_verb_count then 2
    else if 3 ≤ s.action_verb_count then 1 else 0
  let headerScore : ℚ :=
    if 4 ≤ s.section_headers then 2
    else if 2 ≤ s.section_headers then 1 else 0
  let educationScore : ℚ := if s.has_education then 1 else 0
  (min (lengthScore + verbScore + headerScore + educationScore) 10, s)

/-- Lines 363-399: _generate_overall_assessment, level field. -/
def overallAssessmentLevel (percentage : ℚ) : String :=
  if 85 ≤ percentage then "Outstanding"
  else if 75 ≤ percentage then "Excellent"
  else if 65 ≤ percentage then "Good"
  else if 50 ≤ percentage then "Fair"
  else "Needs Improvement"

/-- One category record of the score breakdown (score, max, weight; the
narrative details list carries no numbers that flow anywhere). -/
structure CategoryScore where
  score : ℚ
  max : ℚ
  weight : ℚ
deriving DecidableEq, Repr

/-- The score_breakdown dict of calculate_comprehensive_ats_score. -/
structure ScoreBreakdown where
  contact_info : CategoryScore
  technical_skills : CategoryScore
  experience_quality : CategoryScore
  quantified_achievements : CategoryScore
  content_optimization : CategoryScore
  overall_assessment_level : String
deriving DecidableEq, Repr

/-- Lines 20-57: calculate_comprehensive_ats_score.  Returns the Python
triple (total_score, max_possible, score_breakdown) together with the fact
model it was given. -/
def calculateComprehensiveATSScore (text : String) (targetRole : Option String)
    (s0 : Sections) : (ℚ × ℚ × ScoreBreakdown) × Sections :=
  let (c1, s1) := scoreContactInformation s0
  let (c2, s2) := scoreTechnicalSkills text targetRole s1
  let (c3, s3) := scoreExperienceQuality s2
  let (c4, s4) := scoreQuantifiedAchievements s3
  let (c5, s5) := scoreContentOptimization s4
  let totalScore := c1 + c2 + c3 + c4 + c5
  let maxPossible : ℚ := 15 + 30 + 25 + 20 + 10
  let breakdown : ScoreBreakdown :=
    { contact_info := { score := c1, max := 15, weight := 0.15 },
      technical_skills := { score := c2, max := 30, weight := 0.30 },
      experience_quality := { score := c3, max := 25, weight := 0.25 },
      quantified_achievements := { score := c4, max := 20, weight := 0.20 },
      content_optimization := { score := c5, max := 10, weight := 0.10 },
      overall_assessment_level := overallAssessmentLevel (totalScore / maxPossible * 100) }
  ((totalScore, maxPossible, breakdown), s5)

/-! ## job_matcher.py -/

/-- Per-role compatibility record of _calculate_role_compatibility. -/
structure RoleCompatibility where
  score : ℚ
  matched_core_skills : List String
  matched_frameworks : List String
  matched_methodologies : List String
  matched_platforms : List String
  missing_core_skills : List String
  missing_frameworks : List String
  role_data : RoleProfile
deriving DecidableEq, Repr

/-- Lines 58-99: _calculate_role_compatibility for one role profile over the
lowered text. -/
def roleCompatibilityFor (textLower : String) (role : RoleProfile) : RoleCompatibility :=
  let matchedCore := role.core_skills.filter (fun k => strContains textLower (pyLower k))
  let matchedFrameworks := role.frameworks.filter (fun k => strContains textLower (pyLower k))
  let matchedMethodologies := role.methodologies.filter (fun k => strContains textLower (pyLower k))
  let matchedPlatforms := role.platforms.filter (fun k => strContains textLower (pyLower k))
  let totalScore : ℚ := (matchedCore.length : ℚ) * 3 + (matchedFrameworks.length : ℚ) * 2 +
    (matchedMethodologies.length : ℚ) * 1.5 + (matchedPlatforms.length : ℚ) * 1
  let maxPossible : ℚ := (role.core_skills.length : ℚ) * 3 + (role.frameworks.length : ℚ) * 2 +
    (role.methodologies.length : ℚ) * 1.5 + (role.platforms.length : ℚ) * 1
  { score := if 0 < maxPossible then totalScore / maxPossible * 100 else 0,
    matched_core_skills := matchedCore,
    matched_frameworks := matchedFrameworks,
    matched_methodologies := matchedMethodologies,
    matched_platforms := matchedPlatforms,
    missing_core_skills := role.core_skills.filter (fun k => ¬ strContains textLower (pyLower k)),
    missing_frameworks := role.frameworks.filter (fun k => ¬ strContains textLower (pyLower k)),
    role_data := role }

/-- The full compatibility table over the catalog, in catalog order. -/
def calculateRoleCompatibility (textLower : String) : List (String × RoleCompatibility) :=
  atsKeywords.map (fun role => (role.key, roleCompatibilityFor textLower role))

/-- Stable descending insertion by score, modelling Python sorted(...,
key score, reverse=True): an element goes after every element of greater or
equal score. -/
def insertByScoreDesc (x : String × RoleCompatibility) :
    List (String × RoleCompatibility) → List (String × RoleCompatibility)
  | [] => [x]
  | y :: rest =>
    if x.2.score ≤ y.2.score then y :: insertByScoreDesc x rest
    else x :: y :: rest

/-- Stable sort by descending score (Python sorted with reverse=True is
stable, so ties keep catalog order). -/
def sortByScoreDesc (l : List (String × RoleCompatibility)) :
    List (String × RoleCompatibility) :=
  l.foldr insertByScoreDesc []

/-- role_key.replace('_', ' ').title() of line 110 (role names are lowercase
snake_case keys). -/
def roleDisplayName (key : String) : String := pyTitle (key.replace "_" " ")

/-- Round half to even, used to model the f"{score:.1f}%" display string that
later market code parses back with float(). -/
def roundHalfEven (x : ℚ) : ℤ :=
  let f := ⌊x⌋
  let frac := x - (f : ℚ)
  if frac < 1/2 then f
  else if 1/2 < frac then f + 1
  else if f % 2 = 0 then f else f + 1

/-- Model of f"{score:.1f}" (the underlying float may settle a near-tie the
other way, which only nudges the displayed decimal, never any breakpoint
used below). -/
def pyRound1 (q : ℚ) : ℚ := (roundHalfEven (q * 10) : ℚ) / 10

/-- Lines 177-208: _assess_role_fit, level field. -/
def fitLevel (score : ℚ) : String :=
  if 80 ≤ score then "Excellent Fit"
  else if 65 ≤ score then "Very Good Fit"
  else if 50 ≤ score then "Good Fit"
  else if 35 ≤ score then "Potential Fit"
  else "Limited Fit"

/-- Lines 177-208: _assess_role_fit, timeline field. -/
def fitTimeline (score : ℚ) : String :=
  if 80 ≤ score then "Ready to apply immediately - start targeting premium positions"
  else if 65 ≤ score then "2-4 weeks of targeted preparation to become highly competitive"
  else if 50 ≤ score then "2-3 months of focused skill development to become competitive"
  else if 35 ≤ score then "4-6 months of intensive skill building required"
  else "6-12 months of comprehensive skill development needed"

/-- Lines 210-244: _assess_seniority_level, suggested_level field. -/
def seniorityLevel (years : Nat) : String :=
  if 8 ≤ years then "Senior/Lead"
  else if 5 ≤ years then "Senior"
  else if 3 ≤ years then "Mid-Level"
  else if 1 ≤ years then "Junior"
  else "Entry-Level"

/-- Lines 210-244: _assess_seniority_level, salary multiplier. -/
def salaryMultiplier (years : Nat) : ℚ :=
  if 8 ≤ years then 1.3
  else if 5 ≤ years then 1.2
  else if 3 ≤ years then 1.0
  else if 1 ≤ years then 0.8
  else 0.7

/-- Lines 246-257: _assess_advancement_potential. -/
def advancementPotential (years : Nat) (score : ℚ) : String :=
  if 8 ≤ years ∧ 80 ≤ score then
    "Excellent advancement potential - ready for senior/leadership positions"
  else if 5 ≤ years ∧ 70 ≤ score then
    "Strong advancement potential - focus on leadership and strategic skills"
  else if 3 ≤ years ∧ 60 ≤ score then
    "Good advancement potential - continue technical depth and leadership development"
  else if 1 ≤ years ∧ 50 ≤ score then
    "Moderate advancement potential - focus on skill development and experience building"
  else
    "Limited immediate advancement potential - prioritize foundational skill development"

/-- Lines 324-335: _determine_career_stage over a five-rung ladder. -/
def determineCareerStage (years : Nat) (stages : List String) : String :=
  if years = 0 then stages.getD 0 "Entry Level"
  else if years ≤ 2 then stages.getD 1 "Junior Level"
  else if years ≤ 5 then stages.getD 2 "Mid Level"
  else if years ≤ 8 then stages.getD 3 "Senior Level"
  else stages.getD 4 "Leadership Level"

/-- Lines 296-322: current_stage of _generate_career_progression (roles
absent from the progression table get the default ladder wrapped in
"Estimated at ..."). -/
def careerStageFor (roleKey : String) (years : Nat) : String :=
  if roleKey = "software_developer" then
    determineCareerStage years
      ["Junior Developer", "Software Developer", "Senior Developer", "Tech Lead",
       "Engineering Manager"]
  else if roleKey = "data_scientist" then
    determineCareerStage years
      ["Data Analyst", "Data Scientist", "Senior Data Scientist",
       "Principal Data Scientist", "Head of Data Science"]
  else if roleKey = "ai_engineer" then
    determineCareerStage years
      ["ML Engineer", "AI Engineer", "Senior AI Engineer", "Principal AI Engineer",
       "AI Research Director"]
  else
    "Estimated at " ++ determineCareerStage years
      ["Entry Level", "Mid Level", "Senior Level", "Lead Level", "Management Level"]

/-- The structural core of one detailed role suggestion (lines 109-173); the
fixed narrative tables (learning resources, interview tips, ...) are constant
per role key and carry no data from the fact model. -/
structure JobSuggestion where
  role : String
  score : ℚ
  compatibility_display : ℚ
  fit_level : String
  readiness_timeline : String
  seniority_level : String
  salary_multiplier : ℚ
  advancement : String
  career_stage : String
  matched_core_skills : List String
  matched_frameworks : List String
  matched_methodologies : List String
  matched_platforms : List String
  skill_gaps_critical : List String
  skill_gaps_important : List String
  skill_gaps_beneficial : List String
deriving DecidableEq, Repr

/-- Lines 101-175: _generate_detailed_role_suggestions (top 6 of the stable
descending sort; the fact model is read once for experience_years). -/
def generateDetailedRoleSuggestions (roleCompat : List (String × RoleCompatibility))
    (s : Sections) : List JobSuggestion × Sections :=
  let years := s.experience_years
  let sortedRoles := (sortByScoreDesc roleCompat).take 6
  (sortedRoles.map (fun kc =>
    let key := kc.1
    let c := kc.2
    { role := roleDisplayName key,
      score := c.score,
      compatibility_display := pyRound1 c.score,
      fit_level := fitLevel c.score,
      readiness_timeline := fitTimeline c.score,
      seniority_level := seniorityLevel years,
      salary_multiplier := salaryMultiplier years,
      advancement := advancementPotential years c.score,
      career_stage := careerStageFor key years,
      matched_core_skills := c.matched_core_skills,
      matched_frameworks := c.matched_frameworks,
      matched_methodologies := c.matched_methodologies,
      matched_platforms := c.matched_platforms,
      skill_gaps_critical := c.missing_core_skills.take 3,
      skill_gaps_important := c.missing_frameworks.take 3,
      skill_gaps_beneficial := (c.missing_core_skills.drop 3).take 3 }), s)

/-- Lines 484-509: the data-bearing part of _create_career_roadmap (none when
there are no suggestions, in which case Python returns only a message). -/
structure RoadmapCore where
  current_experience : Nat
  recommended_role : String
  recommended_fit : String
  development_timeline : String
deriving DecidableEq, Repr

def createCareerRoadmap (suggestions : List JobSuggestion) (s : Sections) :
    Option RoadmapCore × Sections :=
  let years := s.experience_years
  (match suggestions.head? with
   | none => none
   | some top =>
     some { current_experience := years,
            recommended_role := top.role,
            recommended_fit := top.fit_level,
            development_timeline := top.readiness_timeline }, s)

/-- Lines 614-645: _estimate_salary_range.  Salary bounds are kept as exact
rationals before Python truncates int(base*multiplier); the float product can
shave at most one dollar off the narrative figure and feeds nothing else. -/
def estimateSalaryRange (years : Nat) (compatDisplay : ℚ) : ℚ × ℚ :=
  let bracket : Nat :=
    if 8 ≤ years then 8 else if 5 ≤ years then 5 else if 3 ≤ years then 3
    else if 2 ≤ years then 2 else if 1 ≤ years then 1 else 0
  let base : ℚ × ℚ :=
    if bracket = 8 then (110000, 170000)
    else if bracket = 5 then (90000, 140000)
    else if bracket = 3 then (75000, 120000)
    else if bracket = 2 then (65000, 100000)
    else if bracket = 1 then (55000, 85000)
    else (45000, 70000)
  let multiplier : ℚ :=
    if 75 ≤ compatDisplay then 1.15 else if 60 ≤ compatDisplay then 1.0 else 0.9
  (base.1 * multiplier, base.2 * multiplier)

/-- Lines 511-540: the data-bearing part of _generate_market_analysis; the
bucket tests parse the rounded display percentage back from its string. -/
structure MarketCore where
  high_compatibility_roles : List String
  emerging_opportunities : List String
  stable_career_paths : List String
  salary_lo : ℚ
  salary_hi : ℚ
deriving DecidableEq, Repr

def generateMarketAnalysis (suggestions : List JobSuggestion) (s : Sections) :
    Option MarketCore × Sections :=
  let years := s.experience_years
  (match suggestions.head? with
   | none => none
   | some top =>
     let topThree := suggestions.take 3
     let salary := estimateSalaryRange years top.compatibility_display
     some
      { high_compatibility_roles :=
          (topThree.filter (fun r => 60 ≤ r.compatibility_display)).map (fun r => r.role),
        emerging_opportunities :=
          (topThree.filter (fun r => strContains r.role "AI" ∨ strContains r.role "Data")).map
            (fun r => r.role),
        stable_career_paths :=
          (topThree.filter (fun r =>
            r.role = "Software Developer" ∨ r.role = "Full Stack Developer")).map
            (fun r => r.role),
        salary_lo := salary.1,
        salary_hi := salary.2 }, s)

/-- Lines 542-612: _assess_overall_job_readiness (score and level). -/
def assessOverallJobReadiness (s : Sections) : (Nat × String) × Sections :=
  let expScore : Nat :=
    if 3 ≤ s.experience_years then 30 else if 1 ≤ s.experience_years then 20 else 0
  let skillScore : Nat :=
    if 12 ≤ s.skills_count then 25 else if 6 ≤ s.skills_count then 15 else 0
  let projectScore : Nat :=
    if 3 ≤ s.project_count then 25 else if 1 ≤ s.project_count then 15 else 0
  let achScore : Nat :=
    if 2 ≤ s.quantified_achievements then 20
    else if 1 ≤ s.quantified_achievements then 10 else 0
  let readiness := expScore + skillScore + projectScore + achScore
  let level :=
    if 80 ≤ readiness then "Highly Job Ready"
    else if 60 ≤ readiness then "Job Ready"
    else if 40 ≤ readiness then "Moderately Ready"
    else "Needs Development"
  ((readiness, level), s)

/-- The analysis_result dict of get_comprehensive_job_analysis. -/
structure JobAnalysis where
  role_suggestions : List JobSuggestion
  career_roadmap : Option RoadmapCore
  market_insights : Option MarketCore
  readiness_score : Nat
  readiness_level : String
deriving DecidableEq, Repr

/-- Lines 20-56: get_comprehensive_job_analysis (the optional target_role is
accepted and unused by the Python code). -/
def getComprehensiveJobAnalysis (text : String) (_targetRole : Option String)
    (s0 : Sections) : JobAnalysis × Sections :=
  let textLower := pyLower text
  let roleCompat := calculateRoleCompatibility textLower
  let (suggestions, s1) := generateDetailedRoleSuggestions roleCompat s0
  let (roadmap, s2) := createCareerRoadmap suggestions s1
  let (market, s3) := generateMarketAnalysis suggestions s2
  let ((readiness, level), s4) := assessOverallJobReadiness s3
  ({ role_suggestions := suggestions,
     career_roadmap := roadmap,
     market_insights := market,
     readiness_score := readiness,
     readiness_level := level }, s4)

/-! ## strength_weakness_analyzer.py

Each finding is represented by its headline string (and, for weaknesses, the
fix_priority string); the fixed four-part explanation texts are constant per
finding and carry no fact-model data beyond what the headline interpolates. -/

/-- Lines 52-123: _analyze_experience_strengths. -/
def analyzeExperienceStrengths (s : Sections) : List String × Sections :=
  let ey := s.experience_years
  let eq := s.experience_quality
  let pc := s.position_count
  let yearsItems : List String :=
    if 5 ≤ ey then [s!"Extensive Professional Experience ({ey} years)"]
    else if 3 ≤ ey then [s!"Solid Professional Background ({ey} years)"]
    else if 1 ≤ ey then [s!"Relevant Professional Experience ({ey} years)"]
    else []
  let qualityItems : List String :=
    if 70 ≤ eq then ["Exceptionally Well-Crafted Experience Descriptions"]
    else if 50 ≤ eq then ["Well-Structured Professional Experience"]
    else []
  let leadershipItems : List String :=
    if s.has_leadership then ["Demonstrated Leadership Experience"] else []
  let positionItems : List String :=
    if 3 ≤ pc then [s!"Diverse Professional Background ({pc} positions)"] else []
  (yearsItems ++ qualityItems ++ leadershipItems ++ positionItems, s)

/-- Lines 125-195: _analyze_technical_strengths. -/
def analyzeTechnicalStrengths (text : String) (targetRole : Option String)
    (s : Sections) : List String × Sections :=
  let textLower := pyLower text
  let sc := s.skills_count
  let td := s.technical_depth_score
  let skillsItems : List String :=
    if 15 ≤ sc then [s!"Extensive Technical Skill Portfolio ({sc} skills)"]
    else if 10 ≤ sc then [s!"Strong Technical Foundation ({sc} skills)"]
    else []
  let depthItems : List String :=
    if 10 ≤ td then ["Advanced Technical Communication and Depth"]
    else if 5 ≤ td then ["Good Technical Understanding and Communication"]
    else []
  let roleItems : List String :=
    match targetRole with
    | some tr =>
      if tr ≠ "" then
        match lookupRole tr with
        | some role =>
          let matchedCore := role.core_skills.filter
            (fun k => strContains textLower (pyLower k))
          if (role.core_skills.length : ℚ) * 0.7 ≤ (matchedCore.length : ℚ) then
            [s!"Strong {tr} Technical Alignment"]
          else []
        | none => []
      else []
    | none => []
  let cats := s.skill_categories
  let nonEmpty :=
    ([cats.programming_languages, cats.frameworks_libraries, cats.databases,
      cats.tools_platforms, cats.methodologies].filter (fun l => ¬ l.isEmpty)).length
  let diversityItems : List String :=
    if 4 ≤ nonEmpty then ["Excellent Technical Skill Diversity"] else []
  (skillsItems ++ depthItems ++ roleItems ++ diversityItems, s)

/-- Lines 197-231: _analyze_achievement_strengths. -/
def analyzeAchievementStrengths (s : Sections) : List String × Sections :=
  let ac := s.quantified_achievements
  let ad := s.achievement_diversity
  let countItems : List String :=
    if 4 ≤ ac then [s!"Exceptional Quantified Impact Documentation ({ac} metrics)"]
    else if 2 ≤ ac then [s!"Good Results-Oriented Approach ({ac} quantified achievements)"]
    else []
  let diversityItems : List String :=
    if 3 ≤ ad then ["Diverse Impact Across Multiple Business Areas"] else []
  (countItems ++ diversityItems, s)

/-- Lines 233-259: _analyze_content_quality_strengths. -/
def analyzeContentQualityStrengths (s : Sections) : List String × Sections :=
  let wc := s.word_count
  let av := s.action_verb_count
  let lengthItems : List String :=
    if 400 ≤ wc ∧ wc ≤ 800 then [s!"Optimal Resume Length and Detail ({wc} words)"] else []
  let verbItems : List String :=
    if 8 ≤ av then [s!"Dynamic Professional Language ({av} action verbs)"] else []
  (lengthItems ++ verbItems, s)

/-- Lines 261-287: _analyze_professional_presentation_strengths. -/
def analyzePresentationStrengths (s : Sections) : List String × Sections :=
  let contactItems : List String :=
    if optTruthy s.email ∧ phoneTruthy s.phone then
      ["Complete Professional Contact Information"] else []
  let educationItems : List String :=
    if s.has_education then
      if 3 ≤ s.education_mention_count then
        ["Strong Educational Foundation and Presentation"] else []
    else []
  (contactItems ++ educationItems, s)

/-- Lines 289-315: _analyze_contact_weaknesses; each weakness is its headline
paired with its fix_priority string. -/
def analyzeContactWeaknesses (s : Sections) : List (String × String) × Sections :=
  let emailItems : List (String × String) :=
    if ¬ optTruthy s.email then
      [("Missing Professional Email Address",
        "CRITICAL - Must be fixed immediately before any job applications")]
    else []
  let phoneItems : List (String × String) :=
    if ¬ phoneTruthy s.phone then
      [("Missing Phone Number Contact Information",
        "HIGH - Important for professional accessibility")]
    else []
  (emailItems ++ phoneItems, s)

/-- Lines 317-377: _analyze_technical_weaknesses. -/
def analyzeTechnicalWeaknesses (text : String) (targetRole : Option String)
    (s : Sections) : List (String × String) × Sections :=
  let textLower := pyLower text
  let sc := s.skills_count
  let skillItems : List (String × String) :=
    if sc < 6 then
      [(s!"Limited Technical Skills Documentation ({sc} skills listed)",
        "HIGH - Critical for technical role competitiveness")]
    else []
  let sectionItems : List (String × String) :=
    if s.skills_text = "" then
      [("No Dedicated Technical Skills Section",
        "CRITICAL - Essential for technical role applications")]
    else []
  let roleItems : List (String × String) :=
    match targetRole with
    | some tr =>
      if tr ≠ "" then
        match lookupRole tr with
        | some role =>
          let missingCore := (role.core_skills.take 6).filter
            (fun k => ¬ strContains textLower (pyLower k))
          if 3 ≤ missingCore.length then
            [(s!"Missing Critical {tr} Technical Skills",
              s!"HIGH - Essential for {tr} role targeting")]
          else []
        | none => []
      else []
    | none => []
  let depthItems : List (String × String) :=
    if s.technical_depth_score < 3 then
      [("Limited Technical Depth and Sophistication",
        "MEDIUM - Important for senior role positioning")]
    else []
  (skillItems ++ sectionItems ++ roleItems ++ depthItems, s)

/-- Lines 379-422: _analyze_experience_weaknesses. -/
def analyzeExperienceWeaknesses (s : Sections) : List (String × String) × Sections :=
  let yearsItems : List (String × String) :=
    if s.experience_years = 0 then
      [("No Documented Professional Work Experience",
        "HIGH - Critical for professional role applications")]
    else []
  let qualityItems : List (String × String) :=
    if s.experience_quality < 30 then
      [("Poor Quality Experience Descriptions",
        "HIGH - Critical for professional presentation")]
    else []
  let pc := s.project_count
  let projectItems : List (String × String) :=
    if pc < 2 then
      [(s!"Inadequate Project Portfolio ({pc} projects shown)",
        "MEDIUM - Important for demonstrating practical skills")]
    else []
  (yearsItems ++ qualityItems ++ projectItems, s)

/-- Lines 424-450: _analyze_achievement_weaknesses. -/
def analyzeAchievementWeaknesses (s : Sections) : List (String × String) × Sections :=
  let ac := s.quantified_achievements
  let items : List (String × String) :=
    if ac = 0 then
      [("No Quantified Achievements or Impact Metrics",
        "HIGH - Critical for demonstrating value delivery")]
    else if ac = 1 then
      [("Insufficient Quantified Achievement Documentation",
        "MEDIUM - Important for competitive positioning")]
    else []
  (items, s)

/-- Lines 452-492: _analyze_content_structure_weaknesses. -/
def analyzeContentStructureWeaknesses (s : Sections) : List (String × String) × Sections :=
  let wc := s.word_count
  let av := s.action_verb_count
  let lengthItems : List (String × String) :=
    if wc < 300 then
      [(s!"Resume Too Brief ({wc} words)",
        "MEDIUM - Important for professional presentation")]
    else if 1200 < wc then
      [(s!"Resume Excessively Long ({wc} words)",
        "MEDIUM - Important for optimal ATS performance")]
    else []
  let verbItems : List (String × String) :=
    if av < 4 then
      [(s!"Limited Action Verb Usage ({av} action verbs)",
        "MEDIUM - Important for professional language quality")]
    else []
  (lengthItems ++ verbItems, s)

/-- Lines 19-50: analyze_comprehensive_strengths_weaknesses: the ordered
concatenation of the five strength analyzers and the five weakness
analyzers. -/
def analyzeComprehensiveStrengthsWeaknesses (text : String)
    (targetRole : Option String) (s0 : Sections) :
    (List String × List (String × String)) × Sections :=
  let (st1, s1) := analyzeExperienceStrengths s0
  let (st2, s2) := analyzeTechnicalStrengths text targetRole s1
  let (st3, s3) := analyzeAchievementStrengths s2
  let (st4, s4) := analyzeContentQualityStrengths s3
  let (st5, s5) := analyzePresentationStrengths s4
  let (wk1, s6) := analyzeContactWeaknesses s5
  let (wk2, s7) := analyzeTechnicalWeaknesses text targetRole s6
  let (wk3, s8) := analyzeExperienceWeaknesses s7
  let (wk4, s9) := analyzeAchievementWeaknesses s8
  let (wk5, s10) := analyzeContentStructureWeaknesses s9
  ((st1 ++ st2 ++ st3 ++ st4 ++ st5, wk1 ++ wk2 ++ wk3 ++ wk4 ++ wk5), s10)

/-! ## Claim-side definitions

These definitions state properties the specification asserts, independently of
the operational embedding above, so the claim theorems can compare the two. -/

/-- The specification's first experience estimator: the largest end minus
start over the regex-matched year ranges of the (lowered) experience text,
reading present/current as the current year and ignoring ranges that end
before they start. -/
def estYearRangeSpan (currentYear : Nat) (expText : String) : Nat :=
  ((findYearRanges (pyLower expText)).filterMap (rangeDiff currentYear)).foldl Nat.max 0

/-- The specification's second experience estimator: the literal number of the
first "N years of experience" phrase of the full text (0 when absent). -/
def estExplicitMention (fullText : String) : Nat :=
  (findExpMentions fullText).headD 0

/-- The specification's third experience estimator: the span between the
smallest and largest four-digit year token in 2000..current year appearing in
the experience text (0 when none appear). -/
def estSectionYearSpan (currentYear : Nat) (expText : String) : Nat :=
  let inRange := (findAllYears expText).filter (fun y => 2000 ≤ y ∧ y ≤ currentYear)
  match inRange.min?, inRange.max? with
  | some lo, some hi => hi - lo
  | _, _ => 0

/-- The specification's reading of the structure-score input: the number of
single lines that consist entirely of capital letters. -/
def allCapsLineCount (text : String) : Nat :=
  ((splitOnChar '\n' text.toList).filter
    (fun l => ¬ l.isEmpty ∧ l.toList.all isUpperAZ)).length

/-- The candidates the phone-claim says survive normalization: those whose
cleaned form is valid (at least 10 characters). -/
def retainedPhoneCandidates (text : String) : List String :=
  (phoneCandidates text).filterMap cleanPhoneNumber

/-- The first catalog entry (software_developer), for the C4 witness. -/
def swDevRole : RoleProfile := atsKeywords.get ⟨0, by decide⟩

/-- A text containing literally every keyword of the software_developer
profile. -/
def swDevKeywordText : String :=
  String.intercalate " "
    (swDevRole.core_skills ++ swDevRole.frameworks ++
     swDevRole.methodologies ++ swDevRole.platforms)

/-! ## Helper lemmas -/

/-- The piece list of splitOnRuns is never empty (re.split always returns at
least one piece). -/
theorem splitOnRuns_ne_nil (p : Char → Bool) (l : List Char) :
    (splitOnRuns p l) ≠ [] := by
  unfold splitOnRuns
  induction l with
  | nil => simp
  | cons c rest ih =>
    simp only [List.foldr_cons]
    rcases h : (List.foldr _ ((([""] : List String), false)) rest) with ⟨pieces, flag⟩
    rw [h] at ih
    by_cases hc : p c = true
    · simp only [hc, if_true]
      rcases flag with _ | _ <;> simp_all
    · simp only [Bool.not_eq_true] at hc
      simp only [hc]
      rcases pieces with _ | ⟨piece, more⟩
      · simp
      · simp

/-- The running-max loop of experience method 1 equals a fold of Nat.max over
the valid range lengths. -/
theorem rangeFoldEq (cy : Nat) (l : List (Nat × RangeEnd)) : ∀ acc : Nat,
    l.foldl (rangeStep cy) acc = (l.filterMap (rangeDiff cy)).foldl Nat.max acc := by
  induction l with
  | nil => intro acc; rfl
  | cons hd tl ih =>
    intro acc
    by_cases h : hd.1 ≤ rangeEndYear cy hd.2
    · simp only [List.foldl_cons, List.filterMap_cons, rangeStep, rangeDiff, h,
        if_true, if_pos]
      exact ih _
    · simp only [List.foldl_cons, List.filterMap_cons, rangeStep, rangeDiff, h,
        if_false, if_neg]
      exact ih _

/-- _calculate_total_experience computes exactly the maximum of the three
estimators of the specification. -/
theorem calculateTotalExperience_eq_max (cy : Nat) (expText fullText : String) :
    calculateTotalExperience cy expText fullText =
      Nat.max (Nat.max (estYearRangeSpan cy expText) (estExplicitMention fullText))
              (estSectionYearSpan cy expText) := by
  unfold calculateTotalExperience estYearRangeSpan estExplicitMention estSectionYearSpan
  rw [rangeFoldEq]
  rcases hm : (findExpMentions fullText).head? with _ | n <;>
    simp only [List.headD_eq_head?_getD, hm, Option.getD_some, Option.getD_none,
      Nat.max_zero]
  all_goals {
    by_cases hlen : 2 ≤ (findAllYears expText).length
    · simp only [hlen, if_true]
      rcases hy : ((findAllYears expText).filter (fun y => 2000 ≤ y ∧ y ≤ cy)) with _ | ⟨y, ys⟩
      · simp [List.min?, List.max?, Nat.max_zero]
      · simp [List.min?, List.max?]
    · simp only [hlen, if_false]
      have hle : ((findAllYears expText).filter (fun y => 2000 ≤ y ∧ y ≤ cy)).length ≤ 1 := by
        have h1 := List.length_filter_le (fun y => decide (2000 ≤ y ∧ y ≤ cy)) (findAllYears expText)
        omega
      rcases hy : ((findAllYears expText).filter (fun y => 2000 ≤ y ∧ y ≤ cy)) with _ | ⟨y, ys⟩
      · simp [List.min?, List.max?, Nat.max_zero]
      · rcases ys with _ | ⟨z, zs⟩
        · simp [List.min?, List.max?, Nat.sub_self, Nat.max_zero]
        · rw [hy] at hle
          simp at hle }

/-- Folding addToCategory over a match list appends, to each bucket, exactly
the matches the elif chain sends to that bucket. -/
theorem foldAddToCategory_fields (l : List String) : ∀ c : AchievementCategories,
    l.foldl addToCategory c =
      { performance_metrics := c.performance_metrics ++
          l.filter (fun m => decide (categorizeAchievement m = some AchCat.performance)),
        financial_impact := c.financial_impact ++
          l.filter (fun m => decide (categorizeAchievement m = some AchCat.financial)),
        scale_metrics := c.scale_metrics ++
          l.filter (fun m => decide (categorizeAchievement m = some AchCat.scale)),
        time_improvements := c.time_improvements ++
          l.filter (fun m => decide (categorizeAchievement m = some AchCat.time)),
        quality_metrics := c.quality_metrics ++
          l.filter (fun m => decide (categorizeAchievement m = some AchCat.quality)) } := by
  induction l with
  | nil => intro c; simp
  | cons m t ih =>
    intro c
    simp only [List.foldl_cons, ih (addToCategory c m), List.filter_cons]
    rcases h : categorizeAchievement m with _ | cat
    · simp [addToCategory, h]
    · cases cat <;> simp [addToCategory, h]

/-- The elif chain of lines 299-308 in claim form: a match goes to the first
category whose trigger substrings it contains (financial triggers checked
case-sensitively on the raw match, all others on the lowered match). -/
theorem categorizeAchievement_first_matching (m : String) :
    (categorizeAchievement m = some AchCat.performance ↔
      (["%", "percent", "increase", "improve", "reduce"].any
        (fun w => strContains (pyLower m) w)) = true) ∧
    (categorizeAchievement m = some AchCat.financial ↔
      ((["%", "percent", "increase", "improve", "reduce"].any
          (fun w => strContains (pyLower m) w)) = false ∧
       (["$", "revenue", "cost", "profit", "budget"].any
          (fun w => strContains m w)) = true)) ∧
    (categorizeAchievement m = some AchCat.scale ↔
      ((["%", "percent", "increase", "improve", "reduce"].any
          (fun w => strContains (pyLower m) w)) = false ∧
       (["$", "revenue", "cost", "profit", "budget"].any
          (fun w => strContains m w)) = false ∧
       (["users", "customers", "downloads", "views"].any
          (fun w => strContains (pyLower m) w)) = true)) ∧
    (categorizeAchievement m = some AchCat.time ↔
      ((["%", "percent", "increase", "improve", "reduce"].any
          (fun w => strContains (pyLower m) w)) = false ∧
       (["$", "revenue", "cost", "profit", "budget"].any
          (fun w => strContains m w)) = false ∧
       (["users", "customers", "downloads", "views"].any
          (fun w => strContains (pyLower m) w)) = false ∧
       (["time", "speed", "faster", "efficiency"].any
          (fun w => strContains (pyLower m) w)) = true)) ∧
    (categorizeAchievement m = some AchCat.quality ↔
      ((["%", "percent", "increase", "improve", "reduce"].any
          (fun w => strContains (pyLower m) w)) = false ∧
       (["$", "revenue", "cost", "profit", "budget"].any
          (fun w => strContains m w)) = false ∧
       (["users", "customers", "downloads", "views"].any
          (fun w => strContains (pyLower m) w)) = false ∧
       (["time", "speed", "faster", "efficiency"].any
          (fun w => strContains (pyLower m) w)) = false ∧
       (["accuracy", "precision", "quality", "score"].any
          (fun w => strContains (pyLower m) w)) = true)) := by
  unfold categorizeAchievement
  cases h1 : (["%", "percent", "increase", "improve", "reduce"].any
      (fun w => strContains (pyLower m) w)) <;>
  cases h2 : (["$", "revenue", "cost", "profit", "budget"].any
      (fun w => strContains m w)) <;>
  cases h3 : (["users", "customers", "downloads", "views"].any
      (fun w => strContains (pyLower m) w)) <;>
  cases h4 : (["time", "speed", "faster", "efficiency"].any
      (fun w => strContains (pyLower m) w)) <;>
  cases h5 : (["accuracy", "precision", "quality", "score"].any
      (fun w => strContains (pyLower m) w)) <;>
  simp [h1, h2, h3, h4, h5]

/-- A validated email contains an at sign and a dot, the at sign exactly
once. -/
theorem validateEmail_true_iff {e : String} (h : validateEmail e = true) :
    strContains e "@" = true ∧ strContains e "." = true ∧ countChar e '@' = 1 := by
  unfold validateEmail at h
  split_ifs at h with h1 h2
  push_neg at h1
  rcases h1 with ⟨ha, hd⟩
  push_neg at h2
  exact ⟨ha, hd, h2⟩

/-- The email and email_count fields of _extract_contact_info as functions of
the regex matches, independent of the phone branch taken. -/
theorem extractContactInfo_email_fields (text : String) :
    (extractContactInfo text).email =
      (if ¬ (findallStr emailRE text).isEmpty then
        ((findallStr emailRE text).filter validateEmail).head? else none) ∧
    (extractContactInfo text).email_count =
      (if ¬ (findallStr emailRE text).isEmpty then
        ((findallStr emailRE text).filter validateEmail).length else 0) := by
  unfold extractContactInfo
  by_cases hp : (phoneCandidates text).isEmpty <;>
    by_cases he : (findallStr emailRE text).isEmpty <;>
      simp [hp, he]

/-! ## Claim theorems -/

/-- C2: the extracted experience_years is non-negative and equals the maximum
of the three independent estimators - the largest valid year-range span of the
experience section (present/current read as the current year, backwards ranges
ignored), the first explicit "N years of experience" mention of the full text,
and the span of the in-range four-digit year tokens of the experience section.
Estimates are combined only by maximum, never averaged. -/
theorem c2_experience_years_is_max_of_estimators (currentYear : Nat) (text : String) :
    0 ≤ (extractExperienceAnalysis currentYear text).experience_years ∧
    (extractExperienceAnalysis currentYear text).experience_years =
      Nat.max (Nat.max (estYearRangeSpan currentYear (experienceSectionText text))
                       (estExplicitMention text))
              (estSectionYearSpan currentYear (experienceSectionText text)) := by
  refine ⟨Nat.zero_le _, ?_⟩
  have h : (extractExperienceAnalysis currentYear text).experience_years =
      calculateTotalExperience currentYear (experienceSectionText text) text := by
    simp only [extractExperienceAnalysis]
  rw [h]
  exact calculateTotalExperience_eq_max currentYear (experienceSectionText text) text

/-- C7: every achievement match lands in at most one bucket, namely the first
category (performance, financial, scale, time, quality, in that order) whose
trigger substrings it contains: each stored bucket is exactly the filter of
the match list by that categorization, membership in a bucket forces the
categorization to name that bucket (so no match is in two buckets), and
achievement_diversity is the number of non-empty buckets, hence at most 5. -/
theorem c7_achievement_category_assignment (text : String) :
    (analyzeQuantifiedAchievements text).achievement_diversity =
      nonEmptyCategoryCount (analyzeQuantifiedAchievements text).achievement_categories ∧
    (analyzeQuantifiedAchievements text).achievement_diversity ≤ 5 ∧
    (analyzeQuantifiedAchievements text).achievement_categories.performance_metrics =
      (allAchievementMatches text).filter
        (fun m => decide (categorizeAchievement m = some AchCat.performance)) ∧
    (analyzeQuantifiedAchievements text).achievement_categories.financial_impact =
      (allAchievementMatches text).filter
        (fun m => decide (categorizeAchievement m = some AchCat.financial)) ∧
    (analyzeQuantifiedAchievements text).achievement_categories.scale_metrics =
      (allAchievementMatches text).filter
        (fun m => decide (categorizeAchievement m = some AchCat.scale)) ∧
    (analyzeQuantifiedAchievements text).achievement_categories.time_improvements =
      (allAchievementMatches text).filter
        (fun m => decide (categorizeAchievement m = some AchCat.time)) ∧
    (analyzeQuantifiedAchievements text).achievement_categories.quality_metrics =
      (allAchievementMatches text).filter
        (fun m => decide (categorizeAchievement m = some AchCat.quality)) ∧
    (∀ m : String,
      (m ∈ (analyzeQuantifiedAchievements text).achievement_categories.performance_metrics →
        categorizeAchievement m = some AchCat.performance) ∧
      (m ∈ (analyzeQuantifiedAchievements text).achievement_categories.financial_impact →
        categorizeAchievement m = some AchCat.financial) ∧
      (m ∈ (analyzeQuantifiedAchievements text).achievement_categories.scale_metrics →
        categorizeAchievement m = some AchCat.scale) ∧
      (m ∈ (analyzeQuantifiedAchievements text).achievement_categories.time_improvements →
        categorizeAchievement m = some AchCat.time) ∧
      (m ∈ (analyzeQuantifiedAchievements text).achievement_categories.quality_metrics →
        categorizeAchievement m = some AchCat.quality)) := by
  have hfold := foldAddToCategory_fields (allAchievementMatches text)
    ⟨[], [], [], [], []⟩
  have hcats : (analyzeQuantifiedAchievements text).achievement_categories =
      (allAchievementMatches text).foldl addToCategory ⟨[], [], [], [], []⟩ := by
    simp only [analyzeQuantifiedAchievements]
  rw [hfold] at hcats
  refine ⟨rfl, ?_, ?_, ?_, ?_, ?_, ?_, ?_⟩
  · show nonEmptyCategoryCount _ ≤ 5
    unfold nonEmptyCategoryCount
    have := List.length_filter_le (fun l : List String => decide (¬ l.isEmpty))
      [(analyzeQuantifiedAchievements text).achievement_categories.performance_metrics,
       (analyzeQuantifiedAchievements text).achievement_categories.financial_impact,
       (analyzeQuantifiedAchievements text).achievement_categories.scale_metrics,
       (analyzeQuantifiedAchievements text).achievement_categories.time_improvements,
       (analyzeQuantifiedAchievements text).achievement_categories.quality_metrics]
    simpa using this
  · rw [hcats]
    simp
  · rw [hcats]
    simp
  · rw [hcats]
    simp
  · rw [hcats]
    simp
  · rw [hcats]
    simp
  · intro m
    refine ⟨?_, ?_, ?_, ?_, ?_⟩ <;>
      · rw [hcats]
        intro hm
        simp only [List.nil_append] at hm
        have := List.of_mem_filter hm
        exact of_decide_eq_true this

/-- C7 witness: the theorem instantiated at a text with one quantified
achievement, whose match lands in the performance bucket. -/
theorem c7_witness :
    (analyzeQuantifiedAchievements "increased revenue by 30%").achievement_diversity ≤ 5 ∧
    categorizeAchievement "increased revenue by 30%" = some AchCat.performance := by
  have h := c7_achievement_category_assignment "increased revenue by 30%"
  exact ⟨h.2.1, (h.2.2.2.2.2.2.2 "increased revenue by 30%").1 (by decide)⟩

/-- C9: the three downstream components (scoring engine, strength/weakness
analyzer, job role matcher) hand the fact model back exactly as given: the
embedding threads the model through every component and it returns unchanged,
mirroring the Python code whose only operation on the sections dict is .get.
Each output is a pure function of the text, the fact model, the target role
and the static catalogs, all of which are explicit arguments or closed
constants here. -/
theorem c9_downstream_components_preserve_fact_model
    (text : String) (targetRole : Option String) (s : Sections) :
    (calculateComprehensiveATSScore text targetRole s).2 = s ∧
    (analyzeComprehensiveStrengthsWeaknesses text targetRole s).2 = s ∧
    (getComprehensiveJobAnalysis text targetRole s).2 = s :=
  ⟨rfl, rfl, rfl⟩

/-- C3 counterexample: for the text "2018 - present" with current year 2024
the extracted experience_years is 6, but the experience level of the code is
not "Mid Level": six years falls in the (5, 10] bracket, which the code labels
"Senior Level". -/
theorem c3_counterexample :
    (extractExperienceAnalysis 2024 "2018 - present").experience_years = 6 ∧
    ¬ ((extractExperienceAnalysis 2024 "2018 - present").experience_level = "Mid Level") := by
  constructor
  · decide
  · decide

/-- C3 amended: for the text "2018 - present" with current year 2024 the
extraction yields experience_years = 6 and experience_level = "Senior Level"
(the classifier maps 0 to entry, <=2 junior, <=5 mid, <=10 senior). -/
theorem c3_amended_senior_level :
    (extractExperienceAnalysis 2024 "2018 - present").experience_years = 6 ∧
    (extractExperienceAnalysis 2024 "2018 - present").experience_level = "Senior Level" := by
  constructor
  · decide
  · decide

/-- C8 counterexample: on the text "ab" the code's structure_score is 2
(the header regex carries (?i), so the all-lowercase line "ab" counts), while
the claimed formula min(10, 2 x number of all-caps lines) gives 0. -/
theorem c8_counterexample :
    ¬ ((analyzeContentQuality "ab").structure_score =
        Nat.min 10 (2 * allCapsLineCount "ab")) := by
  decide

/-- C8 amended: structure_score is min(10, 2 x the number of matches of the
case-insensitive multiline pattern ^[A-Z][A-Z\s]+$) - lowercase lines count
and adjacent header lines can merge into one match - and, because splitting on
sentence terminators always yields at least one piece, sentence_count is at
least 1 and avg_words_per_sentence equals word_count / sentence_count
unconditionally (the code's 0-when-no-sentences branch is unreachable). -/
theorem c8_amended_structure_and_average (text : String) :
    (analyzeContentQuality text).structure_score =
      Nat.min 10 ((countMatches sectionHeaderRE text) * 2) ∧
    1 ≤ (analyzeContentQuality text).sentence_count ∧
    (analyzeContentQuality text).avg_words_per_sentence =
      ((analyzeContentQuality text).word_count : ℚ) /
        ((analyzeContentQuality text).sentence_count : ℚ) := by
  refine ⟨rfl, ?_, ?_⟩
  · have h := splitOnRuns_ne_nil (fun c => c = '.' ∨ c = '!' ∨ c = '?') text.toList
    show 1 ≤ (splitOnRuns _ text.toList).length
    rcases hs : splitOnRuns (fun c => c = '.' ∨ c = '!' ∨ c = '?') text.toList with _ | ⟨a, t⟩
    · exact absurd hs h
    · simp
  · have h := splitOnRuns_ne_nil (fun c => c = '.' ∨ c = '!' ∨ c = '?') text.toList
    show (analyzeContentQuality text).avg_words_per_sentence = _
    unfold analyzeContentQuality
    rcases hs : splitOnRuns (fun c => c = '.' ∨ c = '!' ∨ c = '?') text.toList with _ | ⟨a, t⟩
    · exact absurd hs h
    · simp [hs]

/-- C5 counterexample: the text "+1 2 3 4" is matched by the international
phone pattern and its normalization "+1234" is shorter than 10 characters, so
the claim's retained-candidate list is empty; the code nevertheless reports
phone_count = 1 (and stores the null normalization in phone_numbers and in the
canonical phone field).  Invalid candidates are not discarded. -/
theorem c5_counterexample :
    (extractContactInfo "+1 2 3 4").phone_count = 1 ∧
    (retainedPhoneCandidates "+1 2 3 4").length = 0 ∧
    (extractContactInfo "+1 2 3 4").phone = some none ∧
    (extractContactInfo "+1 2 3 4").phone_numbers = [none] := by
  refine ⟨?_, ?_, ?_, ?_⟩ <;> decide

/-- C5 amended: every phone candidate of the four patterns is normalized by
_clean_phone_number (strip non-digit non-plus characters; normalizations whose
cleaned length - including a leading plus sign - is below 10 become null); the
nulls are NOT discarded: phone_numbers is the normalization list of all
candidates, phone_count counts all candidates, and the canonical phone is the
normalization of the first candidate (possibly null), not the first valid
one. -/
theorem c5_amended_phone_normalization (text : String) :
    (extractContactInfo text).phone_numbers =
      (phoneCandidates text).map cleanPhoneNumber ∧
    (extractContactInfo text).phone_count = (phoneCandidates text).length ∧
    (extractContactInfo text).phone =
      ((phoneCandidates text).map cleanPhoneNumber).head? := by
  unfold extractContactInfo
  by_cases h : (phoneCandidates text).isEmpty
  · rcases hp : phoneCandidates text with _ | ⟨p, rest⟩
    · simp [hp]
    · rw [hp] at h
      simp at h
  · simp only [h]
    rcases hp : phoneCandidates text with _ | ⟨p, rest⟩
    · rw [hp] at h
      simp at h
    · simp [hp, List.length_map]

/-- C6: extraction never raises.  Empty or missing text yields the empty fact
model (the Python function returns the empty dict, modelled by none); any
non-empty text yields a populated fact model; and extraction failures inside a
non-empty text are absorbed into null or zero field values, e.g. a text with
no contact information gets email = None, email_count = 0, phone = None,
phone_count = 0 rather than an error. -/
theorem c6_empty_input_and_absorption (currentYear : Nat) :
    extractComprehensiveSections currentYear none = none ∧
    extractComprehensiveSections currentYear (some "") = none ∧
    (∀ t : String, t ≠ "" →
      (extractComprehensiveSections currentYear (some t)).isSome) ∧
    ((buildSections currentYear "hello").email = none ∧
     (buildSections currentYear "hello").email_count = 0 ∧
     (buildSections currentYear "hello").phone = none ∧
     (buildSections currentYear "hello").phone_count = 0 ∧
     (buildSections currentYear "hello").gpa_value = none ∧
     (buildSections currentYear "hello").project_count = 0) := by
  refine ⟨rfl, rfl, ?_, ?_, ?_, ?_, ?_, ?_, ?_⟩
  · intro t ht
    simp [extractComprehensiveSections, ht]
  · show (extractContactInfo "hello").email = none
    decide
  · show (extractContactInfo "hello").email_count = 0
    decide
  · show (extractContactInfo "hello").phone = none
    decide
  · show (extractContactInfo "hello").phone_count = 0
    decide
  · show (extractEducationInfo "hello").gpa_value = none
    decide
  · show (extractProjectAnalysis "hello").project_count = 0
    decide

/-- C6 witness: the theorem instantiated at the concrete text "x". -/
theorem c6_witness :
    extractComprehensiveSections 2024 none = none ∧
    (extractComprehensiveSections 2024 (some "x")).isSome := by
  refine ⟨(c6_empty_input_and_absorption 2024).1, ?_⟩
  exact (c6_empty_input_and_absorption 2024).2.2.1 "x" (by decide)

/-- C1: for every text, fact model and optional target role, the score
breakdown has the category maxima 15/30/25/20/10, every category score is at
most its maximum, the returned total is the sum of the five category scores,
and the returned maximum is the sum of the five category maxima. -/
theorem c1_score_breakdown_bounds (text : String) (targetRole : Option String)
    (s : Sections) :
    (calculateComprehensiveATSScore text targetRole s).1.2.2.contact_info.max = 15 ∧
    (calculateComprehensiveATSScore text targetRole s).1.2.2.technical_skills.max = 30 ∧
    (calculateComprehensiveATSScore text targetRole s).1.2.2.experience_quality.max = 25 ∧
    (calculateComprehensiveATSScore text targetRole s).1.2.2.quantified_achievements.max = 20 ∧
    (calculateComprehensiveATSScore text targetRole s).1.2.2.content_optimization.max = 10 ∧
    (calculateComprehensiveATSScore text targetRole s).1.2.2.contact_info.score ≤
      (calculateComprehensiveATSScore text targetRole s).1.2.2.contact_info.max ∧
    (calculateComprehensiveATSScore text targetRole s).1.2.2.technical_skills.score ≤
      (calculateComprehensiveATSScore text targetRole s).1.2.2.technical_skills.max ∧
    (calculateComprehensiveATSScore text targetRole s).1.2.2.experience_quality.score ≤
      (calculateComprehensiveATSScore text targetRole s).1.2.2.experience_quality.max ∧
    (calculateComprehensiveATSScore text targetRole s).1.2.2.quantified_achievements.score ≤
      (calculateComprehensiveATSScore text targetRole s).1.2.2.quantified_achievements.max ∧
    (calculateComprehensiveATSScore text targetRole s).1.2.2.content_optimization.score ≤
      (calculateComprehensiveATSScore text targetRole s).1.2.2.content_optimization.max ∧
    (calculateComprehensiveATSScore text targetRole s).1.1 =
      (calculateComprehensiveATSScore text targetRole s).1.2.2.contact_info.score +
      (calculateComprehensiveATSScore text targetRole s).1.2.2.technical_skills.score +
      (calculateComprehensiveATSScore text targetRole s).1.2.2.experience_quality.score +
      (calculateComprehensiveATSScore text targetRole s).1.2.2.quantified_achievements.score +
      (calculateComprehensiveATSScore text targetRole s).1.2.2.content_optimization.score ∧
    (calculateComprehensiveATSScore text targetRole s).1.2.1 =
      (calculateComprehensiveATSScore text targetRole s).1.2.2.contact_info.max +
      (calculateComprehensiveATSScore text targetRole s).1.2.2.technical_skills.max +
      (calculateComprehensiveATSScore text targetRole s).1.2.2.experience_quality.max +
      (calculateComprehensiveATSScore text targetRole s).1.2.2.quantified_achievements.max +
      (calculateComprehensiveATSScore text targetRole s).1.2.2.content_optimization.max := by
  refine ⟨rfl, rfl, rfl, rfl, rfl, ?_, ?_, ?_, ?_, ?_, rfl, rfl⟩
  · show (if optTruthy s.email then (8 : ℚ) else 0) +
        (if phoneTruthy s.phone then (7 : ℚ) else 0) ≤ 15
    split_ifs <;> norm_num
  · show min _ (30 : ℚ) ≤ 30
    exact min_le_right _ _
  · show min _ (25 : ℚ) ≤ 25
    exact min_le_right _ _
  · show min _ (20 : ℚ) ≤ 20
    exact min_le_right _ _
  · show min _ (10 : ℚ) ≤ 10
    exact min_le_right _ _

/-- C10: the extracted email is None exactly when email_count is 0, and a
present email is the first regex match that passes validation, so it contains
exactly one at sign and at least one dot. -/
theorem c10_email_none_iff_count_zero (text : String) :
    ((extractContactInfo text).email = none ↔ (extractContactInfo text).email_count = 0) ∧
    (∀ e : String, (extractContactInfo text).email = some e →
      countChar e '@' = 1 ∧ strContains e "." = true ∧
      ((findallStr emailRE text).filter validateEmail).head? = some e) := by
  obtain ⟨hemail, hcount⟩ := extractContactInfo_email_fields text
  by_cases he : (findallStr emailRE text).isEmpty
  · simp only [he, not_true, if_false] at hemail hcount
    rw [hemail, hcount]
    constructor
    · simp
    · intro e hcontra
      simp at hcontra
  · simp only [he, not_false_iff, if_true] at hemail hcount
    rw [hemail, hcount]
    constructor
    · constructor
      · intro h
        rcases hv : (findallStr emailRE text).filter validateEmail with _ | ⟨a, t⟩
        · simp
        · rw [hv] at h
          simp at h
      · intro h
        have : (findallStr emailRE text).filter validateEmail = [] :=
          List.length_eq_zero.mp h
        rw [this]
        rfl
    · intro e hsome
      have hmem : e ∈ (findallStr emailRE text).filter validateEmail :=
        List.mem_of_mem_head? hsome
      have hval : validateEmail e = true := List.of_mem_filter hmem
      obtain ⟨_, hdot, hat⟩ := validateEmail_true_iff hval
      exact ⟨hat, hdot, hsome⟩

/-- C4: for every input text and every role profile of the catalog, the
compatibility percentage (the weighted matched-keyword sum 3/2/1.5/1 over the
same weighted sum of the full keyword lists, times 100) lies in [0, 100], and
a text containing every keyword of the role scores exactly 100. -/
theorem c4_role_compatibility_bounds (text : String) (r : RoleProfile)
    (hr : r ∈ atsKeywords) :
    0 ≤ (roleCompatibilityFor (pyLower text) r).score ∧
    (roleCompatibilityFor (pyLower text) r).score ≤ 100 ∧
    ((∀ kw ∈ r.core_skills ++ r.frameworks ++ r.methodologies ++ r.platforms,
        strContains (pyLower text) (pyLower kw) = true) →
      (roleCompatibilityFor (pyLower text) r).score = 100) := by
  have hmax : (0 : ℚ) < (r.core_skills.length : ℚ) * 3 + (r.frameworks.length : ℚ) * 2 +
      (r.methodologies.length : ℚ) * 1.5 + (r.platforms.length : ℚ) * 1 := by
    fin_cases hr <;> norm_num [atsKeywords]
  have htotal_nonneg : (0 : ℚ) ≤
      ((r.core_skills.filter (fun k => strContains (pyLower text) (pyLower k))).length : ℚ) * 3 +
      ((r.frameworks.filter (fun k => strContains (pyLower text) (pyLower k))).length : ℚ) * 2 +
      ((r.methodologies.filter (fun k => strContains (pyLower text) (pyLower k))).length : ℚ) * 1.5 +
      ((r.platforms.filter (fun k => strContains (pyLower text) (pyLower k))).length : ℚ) * 1 := by
    positivity
  have htotal_le :
      ((r.core_skills.filter (fun k => strContains (pyLower text) (pyLower k))).length : ℚ) * 3 +
      ((r.frameworks.filter (fun k => strContains (pyLower text) (pyLower k))).length : ℚ) * 2 +
      ((r.methodologies.filter (fun k => strContains (pyLower text) (pyLower k))).length : ℚ) * 1.5 +
      ((r.platforms.filter (fun k => strContains (pyLower text) (pyLower k))).length : ℚ) * 1 ≤
      (r.core_skills.length : ℚ) * 3 + (r.frameworks.length : ℚ) * 2 +
      (r.methodologies.length : ℚ) * 1.5 + (r.platforms.length : ℚ) * 1 := by
    gcongr <;> exact_mod_cast List.length_filter_le _ _
  have hscore : (roleCompatibilityFor (pyLower text) r).score =
      (((r.core_skills.filter (fun k => strContains (pyLower text) (pyLower k))).length : ℚ) * 3 +
       ((r.frameworks.filter (fun k => strContains (pyLower text) (pyLower k))).length : ℚ) * 2 +
       ((r.methodologies.filter (fun k => strContains (pyLower text) (pyLower k))).length : ℚ) * 1.5 +
       ((r.platforms.filter (fun k => strContains (pyLower text) (pyLower k))).length : ℚ) * 1) /
      ((r.core_skills.length : ℚ) * 3 + (r.frameworks.length : ℚ) * 2 +
       (r.methodologies.length : ℚ) * 1.5 + (r.platforms.length : ℚ) * 1) * 100 := by
    simp only [roleCompatibilityFor, hmax, if_true]
  refine ⟨?_, ?_, ?_⟩
  · rw [hscore]
    positivity
  · rw [hscore]
    have hdiv : (((r.core_skills.filter (fun k => strContains (pyLower text) (pyLower k))).length : ℚ) * 3 +
        ((r.frameworks.filter (fun k => strContains (pyLower text) (pyLower k))).length : ℚ) * 2 +
        ((r.methodologies.filter (fun k => strContains (pyLower text) (pyLower k))).length : ℚ) * 1.5 +
        ((r.platforms.filter (fun k => strContains (pyLower text) (pyLower k))).length : ℚ) * 1) /
        ((r.core_skills.length : ℚ) * 3 + (r.frameworks.length : ℚ) * 2 +
         (r.methodologies.length : ℚ) * 1.5 + (r.platforms.length : ℚ) * 1) ≤ 1 :=
      (div_le_one hmax).mpr htotal_le
    calc _ ≤ (1 : ℚ) * 100 := by
          exact mul_le_mul_of_nonneg_right hdiv (by norm_num)
      _ = 100 := one_mul 100
  · intro hall
    have hcore : r.core_skills.filter (fun k => strContains (pyLower text) (pyLower k)) =
        r.core_skills :=
      List.filter_eq_self.mpr (fun a ha => hall a (List.mem_append_left _
        (List.mem_append_left _ (List.mem_append_left _ ha))))
    have hfw : r.frameworks.filter (fun k => strContains (pyLower text) (pyLower k)) =
        r.frameworks :=
      List.filter_eq_self.mpr (fun a ha => hall a (List.mem_append_left _
        (List.mem_append_left _ (List.mem_append_right _ ha))))
    have hmeth : r.methodologies.filter (fun k => strContains (pyLower text) (pyLower k)) =
        r.methodologies :=
      List.filter_eq_self.mpr (fun a ha => hall a (List.mem_append_left _
        (List.mem_append_right _ ha)))
    have hplat : r.platforms.filter (fun k => strContains (pyLower text) (pyLower k)) =
        r.platforms :=
      List.filter_eq_self.mpr (fun a ha => hall a (List.mem_append_right _ ha))
    rw [hscore, hcore, hfw, hmeth, hplat, div_self (ne_of_gt hmax), one_mul]

set_option maxRecDepth 100000 in
/-- C4 witness: the software_developer profile against a text holding every
one of its keywords scores exactly 100 percent. -/
theorem c4_witness :
    0 ≤ (roleCompatibilityFor (pyLower swDevKeywordText) swDevRole).score ∧
    (roleCompatibilityFor (pyLower swDevKeywordText) swDevRole).score ≤ 100 ∧
    (roleCompatibilityFor (pyLower swDevKeywordText) swDevRole).score = 100 := by
  have h := c4_role_compatibility_bounds swDevKeywordText swDevRole (by decide)
  exact ⟨h.1, h.2.1, h.2.2 (by decide)⟩

/-- C10 witness: the theorem instantiated at a text holding the address
"a@b.cd". -/
theorem c10_witness :
    ((extractContactInfo "mail a@b.cd now").email = none ↔
      (extractContactInfo "mail a@b.cd now").email_count = 0) ∧
    countChar "a@b.cd" '@' = 1 ∧ strContains "a@b.cd" "." = true := by
  have h := c10_email_none_iff_count_zero "mail a@b.cd now"
  have hinst := h.2 "a@b.cd" (by decide)
  exact ⟨h.1, hinst.1, hinst.2.1⟩

end ResumeAnalyzer

